import Mathlib

/-!
Verification of the OAC-to-PowerBI report extractor
(`py/extract_dashboard_reports.py`) against its natural-language
specification.

The development shallowly embeds the parts of the Python program the
claims are about:

* the XML element accessors `text`, `get_attr`, `find`, `findall`
  (source lines 449-488), over a tree model `Element`;
* the filter-expression flattener `parse_filter_expression` and
  `build_single_filter_expression` (lines 1204-1401);
* the report parser slice of `parse_report` that yields report rows
  (subject area resolution), column rows, column-order rows, view rows
  and chart rows (lines 515-761);
* the CSV builders `create_worksheets_csv_data` (lines 1771-2050,
  restricted to the fields any claim mentions),
  `create_charttype_csv_data` (lines 2052-2224) and
  `create_filters_csv_data` (lines 2284-2554);
* the post-processing pass `_filter_erroneous_tablenames_rows`
  (lines 56-87) including its anchored SUM(...)-SUM(...) regular
  expression, and `_normalize_columnnames_biserver_variables`
  (lines 89-111);
* the corpus scanner `process_all_reports_recursively`
  (lines 1644-1716), the fallback synthesizers
  `_synthesize_dashboard_report_views_from_reports` and
  `_synthesize_global_filters_from_prompts` (lines 2618-2687), and the
  corresponding part of `main` (lines 2689-2860).

Modelling conventions:

* XML namespace URLs are abstracted to their prefix names: a resolved
  tag such as `\x7bcom.siebel.analytics.web/expression/v1.1\x7dexpr`
  is written `sawx:expr`, and the resolved attribute key for
  `xsi:type` is written `xsi:type`.  This renaming is injective, so it
  preserves all equalities and disequalities the code tests.
* Python `None` for an element is `Option.none`; a `None` text field
  of an element is the empty string (the code normalizes both with
  `or ''` / `itertext` skipping `None`).
* Strings are ASCII in all corpora considered; `lower`, `upper`,
  `strip` and `split` are embedded with their ASCII semantics.
-/

/-! ## Python string primitives -/

/-- Whitespace characters of Python `str.split()` / `str.strip()` / `\s`
(ASCII range). -/
def pyIsSpace (c : Char) : Bool :=
  c == ' ' || c == '\t' || c == '\n' || c == '\x0d' || c == '\x0b' || c == '\x0c'

/-- Helper for `pySplitWS`: split a character list on whitespace runs. -/
def splitWSChars : List Char → List Char → List String
  | [], acc => if acc.isEmpty then [] else [String.mk acc.reverse]
  | c :: cs, acc =>
    if pyIsSpace c then
      (if acc.isEmpty then [] else [String.mk acc.reverse]) ++ splitWSChars cs []
    else
      splitWSChars cs (c :: acc)

/-- Python `s.split()`: split on whitespace runs, discarding empty pieces. -/
def pySplitWS (s : String) : List String :=
  splitWSChars s.toList []

/-- Python `' '.join(s.split())`: collapse internal whitespace. -/
def pyCollapseWS (s : String) : String :=
  String.intercalate " " (pySplitWS s)

/-- Python `s.strip()` (ASCII whitespace). -/
def pyStrip (s : String) : String :=
  String.mk (((s.toList.dropWhile pyIsSpace).reverse.dropWhile pyIsSpace).reverse)

/-- Python `s.strip(ch)` for a single strip character. -/
def pyStripChar (ch : Char) (s : String) : String :=
  String.mk (((s.toList.dropWhile (· == ch)).reverse.dropWhile (· == ch)).reverse)

/-- Python `sub in s` substring containment. -/
def pyContains (s sub : String) : Bool :=
  (s.toList.tails).any (fun t => sub.toList.isPrefixOf t)

/-- Python `s.upper()` (ASCII). -/
def pyToUpper (s : String) : String :=
  String.mk (s.toList.map Char.toUpper)

/-- Python `s.lower()` (ASCII). -/
def pyToLower (s : String) : String :=
  String.mk (s.toList.map Char.toLower)

/-- Emptiness of a string, computed on the character list (kernel-reducible,
unlike `String.isEmpty`). -/
def pyIsEmpty (s : String) : Bool :=
  s.toList.isEmpty

/-- Python `s.startswith(p)`, computed on the character lists. -/
def pyIsPrefixOf (p s : String) : Bool :=
  p.toList.isPrefixOf s.toList

/-- Python `s.endswith(p)`, computed on the character lists. -/
def pyIsSuffixOf (p s : String) : Bool :=
  p.toList.isSuffixOf s.toList

/-- Helper for `pySplitOnChar`: split a character list at a separator. -/
def splitOnCharAux (sep : Char) : List Char → List Char → List String
  | [], acc => [String.mk acc.reverse]
  | c :: cs, acc =>
    if c == sep then String.mk acc.reverse :: splitOnCharAux sep cs []
    else splitOnCharAux sep cs (c :: acc)

/-- Python `s.split(sep)` for a one-character separator: all pieces,
including empty ones. -/
def pySplitOnChar (sep : Char) (s : String) : List String :=
  splitOnCharAux sep s.toList []

/-- Helper for `pyReplace`: fuel-driven non-overlapping left-to-right
replacement (the fuel starts at the list length, which suffices). -/
def replaceFuel (pat rep : List Char) : Nat → List Char → List Char
  | 0, s => s
  | _ + 1, [] => []
  | n + 1, c :: cs =>
    if !pat.isEmpty && pat.isPrefixOf (c :: cs) then
      rep ++ replaceFuel pat rep n ((c :: cs).drop pat.length)
    else c :: replaceFuel pat rep n cs

/-- Python `s.replace(pat, rep)` for a non-empty pattern. -/
def pyReplace (s pat rep : String) : String :=
  String.mk (replaceFuel pat.toList rep.toList s.toList.length s.toList)

/-- Python `s.isdigit()` (ASCII digits). -/
def pyIsDigit (s : String) : Bool :=
  !(pyIsEmpty s) && s.toList.all Char.isDigit

/-- Numeric value of an ASCII digit string (used after an `isdigit` check,
like Python `int(s)`). -/
def pyToNat (s : String) : Nat :=
  s.toList.foldl (fun n c => n * 10 + (c.toNat - '0'.toNat)) 0

/-- Python `os.path.basename` for '/'-separated paths: the part after the
last slash. -/
def pyBasename (s : String) : String :=
  ((pySplitOnChar '/' s).getLast?).getD ""

/-- Python `os.path.dirname` for '/'-separated paths: everything before the
last slash (empty when there is no slash). -/
def pyDirname (s : String) : String :=
  let parts := pySplitOnChar '/' s
  if parts.length ≤ 1 then "" else String.intercalate "/" (parts.dropLast)

/-- Value of an ASCII hex digit, if any. -/
def hexVal (c : Char) : Option Nat :=
  if '0' ≤ c ∧ c ≤ '9' then some (c.toNat - '0'.toNat)
  else if 'a' ≤ c ∧ c ≤ 'f' then some (c.toNat - 'a'.toNat + 10)
  else if 'A' ≤ c ∧ c ≤ 'F' then some (c.toNat - 'A'.toNat + 10)
  else none

/-- Helper for `pyUnquote`: decode percent escapes in a character list. -/
def unquoteChars : List Char → List Char
  | [] => []
  | '%' :: a :: b :: rest =>
    match hexVal a, hexVal b with
    | some ha, some hb => Char.ofNat (ha * 16 + hb) :: unquoteChars rest
    | _, _ => '%' :: unquoteChars (a :: b :: rest)
  | c :: rest => c :: unquoteChars rest

/-- Python `urllib.parse.unquote` restricted to single-byte (ASCII) percent
escapes, which covers every corpus considered here. -/
def pyUnquote (s : String) : String :=
  String.mk (unquoteChars s.toList)

/-! ## The XML element model and accessors -/

mutual
/-- Parsed XML element: tag (namespace-resolved, abbreviated to its prefix
form, see the header), attributes, text before the first child, tail text
after the element, and child elements. -/
inductive Element : Type where
  | mk (tag : String) (attrs : List (String × String)) (txt : String)
       (tail : String) (children : ElementList)
deriving Repr
/-- Child list of an `Element` (a separate inductive so that all recursions
below are structural and kernel-computable). -/
inductive ElementList : Type where
  | nil
  | cons (hd : Element) (tl : ElementList)
deriving Repr
end

/-- Build an `ElementList` from a `List Element` (for writing examples). -/
def EL : List Element → ElementList
  | [] => .nil
  | e :: es => .cons e (EL es)

/-- Tag of an element. -/
def Element.tagOf : Element → String
  | .mk t _ _ _ _ => t

/-- Attribute list of an element. -/
def Element.attrsOf : Element → List (String × String)
  | .mk _ a _ _ _ => a

/-- Text (before the first child) of an element. -/
def Element.txtOf : Element → String
  | .mk _ _ x _ _ => x

/-- Tail text of an element. -/
def Element.tailOf : Element → String
  | .mk _ _ _ l _ => l

mutual
/-- Children of an element, as a `List`. -/
def Element.childList : Element → List Element
  | .mk _ _ _ _ ch => ch.toList
/-- Conversion of an `ElementList` to a `List`. -/
def ElementList.toList : ElementList → List Element
  | .nil => []
  | .cons c cs => c :: cs.toList
end

mutual
/-- Proper descendants of an element in document (preorder) order, as
iterated by ElementTree's `elem.iter()` without the element itself. -/
def Element.descendants : Element → List Element
  | .mk _ _ _ _ ch => ch.descList
/-- Descendant traversal of a child list: each child followed by its own
descendants, in order. -/
def ElementList.descList : ElementList → List Element
  | .nil => []
  | .cons c cs => (c :: c.descendants) ++ cs.descList
end

mutual
/-- Python `''.join(elem.itertext())`: the element's text, then for each
child its own `itertext` followed by the child's tail. -/
def Element.itertext : Element → String
  | .mk _ _ x _ ch => x ++ ch.itertextList
/-- The `itertext` concatenation over a child list. -/
def ElementList.itertextList : ElementList → String
  | .nil => ""
  | .cons c cs => c.itertext ++ c.tailOf ++ cs.itertextList
end

/-- One step of the XPath subset the program uses: a tag, with an optional
`[@attr="value"]` predicate. -/
structure Step where
  tag : String
  attrFilter : Option (String × String)
deriving Repr, DecidableEq

/-- Path of the XPath subset the program uses: an optional leading `.//`
(descendant axis) followed by child steps. -/
structure XPath where
  descendant : Bool
  steps : List Step
deriving Repr, DecidableEq

/-- Does an element match one step (tag equality plus the optional attribute
predicate, which requires the attribute to be present with that value)? -/
def matchStep (s : Step) (e : Element) : Bool :=
  e.tagOf == s.tag &&
    match s.attrFilter with
    | none => true
    | some (k, v) => e.attrsOf.lookup k == some v

/-- Child-axis application of one step to a node set. -/
def applyStep (es : List Element) (s : Step) : List Element :=
  es.flatMap (fun x => x.childList.filter (matchStep s))

/-- Evaluation of a path on a (present) element, mirroring
`ElementPath.findall`: the first step matches children (or all proper
descendants in document order, for a leading `.//`), each later step
matches children of the previous node set. -/
def findallE (e : Element) (p : XPath) : List Element :=
  match p.steps with
  | [] => []
  | s :: rest =>
    let base :=
      if p.descendant then e.descendants.filter (matchStep s)
      else e.childList.filter (matchStep s)
    rest.foldl applyStep base

/-- Embedding of `findall(elem, path)` (source lines 482-488): the empty
list when the node is absent. -/
def findall (oe : Option Element) (p : XPath) : List Element :=
  match oe with
  | none => []
  | some e => findallE e p

/-- Embedding of `find(elem, path)` (source lines 474-480): `None` when the
node is absent; otherwise the first match in document order. -/
def find (oe : Option Element) (p : XPath) : Option Element :=
  (findall oe p).head?

/-- Embedding of `text(elem)` (source lines 449-461): empty string for an
absent node, otherwise the whitespace-collapsed concatenation of all text
content including child elements. -/
def text (oe : Option Element) : String :=
  match oe with
  | none => ""
  | some e => pyCollapseWS e.itertext

/-- Embedding of `get_attr(elem, name, default)` (source lines 463-472):
the default for an absent node or a missing attribute. -/
def get_attr (oe : Option Element) (name : String) (default : String := "") : String :=
  match oe with
  | none => default
  | some e => (e.attrsOf.lookup name).getD default

/-- Embedding of `strip_prefix(value, prefix)` (source lines 490-499);
renamed `stripPfx` in this development. -/
def stripPfx (value pfx : String) : String :=
  if pyIsEmpty value then value
  else if pyIsPrefixOf pfx value then String.mk (value.toList.drop pfx.toList.length)
  else value

/-- Embedding of `normalize_view_name` (source lines 503-513): remove a
trailing `!<digits>` suffix. -/
def normalize_view_name (name : String) : String :=
  if pyIsEmpty name then name
  else
    let cs := name.toList.reverse
    let digits := cs.takeWhile Char.isDigit
    let rest := cs.dropWhile Char.isDigit
    if !digits.isEmpty ∧ rest.head? = some '!' then
      String.mk (rest.tail.reverse)
    else name

/-! ## XPath constants used by the filter flattener -/

/-- Path `sawx:expr` (direct child expressions). -/
def pSawxExpr : XPath := ⟨false, [⟨"sawx:expr", none⟩]⟩

/-- Path `.//sawx:expr[@xsi:type="sawx:sqlExpression"]`. -/
def pDescSqlExpr : XPath :=
  ⟨true, [⟨"sawx:expr", some ("xsi:type", "sawx:sqlExpression")⟩]⟩

/-- Path `.//sawx:expr[@xsi:type="xsd:string"]`. -/
def pDescXsdString : XPath :=
  ⟨true, [⟨"sawx:expr", some ("xsi:type", "xsd:string")⟩]⟩

/-- Path `saw:columnFormula/sawx:expr`. -/
def pColumnFormulaExpr : XPath :=
  ⟨false, [⟨"saw:columnFormula", none⟩, ⟨"sawx:expr", none⟩]⟩

/-- Operator attribute of a filter-expression node (`get_attr(e, 'op', '')`). -/
def opOf (e : Element) : String := get_attr (some e) "op" ""

/-- Stripped `xsi:type` of a filter-expression node
(`strip_prefix(get_attr(e, '...type'), 'sawx:')`). -/
def exprTypeOf (e : Element) : String := stripPfx (get_attr (some e) "xsi:type" "") "sawx:"

/-- Does `parse_filter_expression` treat this node as a logical and/or node
(`expr_type == 'logical' and op in ('and', 'or')`)? -/
def isLogicalAndOr (e : Element) : Bool :=
  exprTypeOf e == "logical" && (opOf e == "and" || opOf e == "or")

/-! ## build_single_filter_expression (source lines 1310-1401) -/

/-- Comparison operator symbol map with the operator itself as default
(`{'equal': '=', ...}.get(op, op)`). -/
def opSymbol (op : String) : String :=
  if op == "equal" then "="
  else if op == "notEqual" then "!="
  else if op == "greaterOrEqual" then ">="
  else if op == "lessOrEqual" then "<="
  else if op == "greater" then ">"
  else if op == "less" then "<"
  else op

/-- Membership of an operator in the comparison operator tuple
`('equal', 'greaterOrEqual', 'lessOrEqual', 'notEqual', 'greater', 'less')`. -/
def isComparisonOp (op : String) : Bool :=
  op == "equal" || op == "greaterOrEqual" || op == "lessOrEqual" ||
  op == "notEqual" || op == "greater" || op == "less"

/-- Embedding of `build_single_filter_expression(expr_elem)`
(source lines 1310-1401). -/
def build_single_filter_expression (oe : Option Element) : String :=
  match oe with
  | none => ""
  | some e =>
    let op := opOf e
    let expr_type := exprTypeOf e
    if expr_type == "logical" && (op == "and" || op == "or") then ""
    else if op == "in" then
      match findall (some e) pSawxExpr with
      | [] => ""
      | c0 :: rest =>
        let column := text (some c0)
        let values := rest.map (fun c => text (some c))
        if !values.isEmpty then
          column ++ " IN (" ++ String.intercalate ", " values ++ ")"
        else
          column ++ " IN ()"
    else if op == "between" then
      match findall (some e) pSawxExpr with
      | c0 :: c1 :: c2 :: _ =>
        text (some c0) ++ " BETWEEN " ++ text (some c1) ++ " AND " ++ text (some c2)
      | c0 :: _ => text (some c0)
      | [] => ""
    else if expr_type == "comparison" || isComparisonOp op then
      match findall (some e) pSawxExpr with
      | c0 :: c1 :: _ =>
        let left_type := stripPfx (get_attr (some c0) "xsi:type" "") "sawx:"
        let left :=
          if left_type == "columnExpression" then
            match find (some c0) pColumnFormulaExpr with
            | some formula_elem => text (some formula_elem)
            | none => text (some c0)
          else text (some c0)
        let right := text (some c1)
        left ++ " " ++ opSymbol op ++ " " ++ right
      | [c0] => text (some c0)
      | [] => ""
    else if expr_type == "special" && op == "prompted" then
      match findall (some e) pSawxExpr with
      | [] => ""
      | c0 :: _ =>
        let child_type := stripPfx (get_attr (some c0) "xsi:type" "") "sawx:"
        let column :=
          if child_type == "sqlExpression" then text (some c0)
          else if child_type == "columnExpression" then
            match find (some c0) pColumnFormulaExpr with
            | some formula_elem => text (some formula_elem)
            | none => c0.txtOf
          else
            let direct := c0.txtOf
            if pyIsEmpty direct then
              match find (some c0) pDescSqlExpr with
              | some sql_expr => text (some sql_expr)
              | none => direct
            else direct
        if !(pyIsEmpty column) then column ++ " IS PROMPTED" else ""
    else ""

/-! ## parse_filter_expression (source lines 1204-1308) -/

/-- Flattened filter-condition row (the dictionary built at source lines
1301-1308). -/
structure FilterRow where
  operator : String
  parent_operator : String
  column_expression : String
  column_name : String
  table_name : String
  filter_value : String
deriving Repr, DecidableEq

/-- Table/column extraction loop over `sqlExpression` descendants (source
lines 1238-1245): the first still-unset name wins, scanning in document
order. -/
def extractTableColumn : List Element → String × String → String × String
  | [], tc => tc
  | s :: rest, (t, c) =>
    let expr_text := text (some s)
    if !(pyIsEmpty expr_text) && pyContains expr_text "\"" then
      let parts := pySplitOnChar '"' expr_text
      let t' := if parts.length ≥ 2 && pyIsEmpty t then parts[1]! else t
      let c' := if parts.length ≥ 4 && pyIsEmpty c then parts[3]! else c
      extractTableColumn rest (t', c')
    else
      extractTableColumn rest (t, c)

/-- Filter-value extraction by operator type (source lines 1247-1286). -/
def filterValueOf (e : Element) (op : String) : String :=
  if op == "prompted" then ""
  else if op == "in" then
    let child_exprs := findall (some e) pSawxExpr
    let values := (child_exprs.drop 1).map (fun c => text (some c)) |>.filter (fun v => !(pyIsEmpty v))
    String.intercalate " | " values
  else if isComparisonOp op then
    match findall (some e) pSawxExpr with
    | _ :: c1 :: _ => text (some c1)
    | _ => ""
  else if op == "between" then
    match findall (some e) pSawxExpr with
    | _ :: c1 :: c2 :: _ => text (some c1) ++ " | " ++ text (some c2)
    | _ => ""
  else if op == "null" || op == "notNull" || op == "isNull" || op == "isNotNull" then ""
  else
    ((findall (some e) pDescXsdString).map (fun c => text (some c))
      |>.filter (fun v => !(pyIsEmpty v))).headD ""

/-- Non-logical part of `parse_filter_expression` (source lines 1225-1308):
build the expression string, extract column/table/value, apply the
IS PROMPTED / IN reconstruction fix-ups, and emit zero or one rows. -/
def leafFilterRows (e : Element) (parent_op : String) : List FilterRow :=
  let op := opOf e
  let expression_string := build_single_filter_expression (some e)
  if pyIsEmpty expression_string then []
  else
    let tc := extractTableColumn (findall (some e) pDescSqlExpr) ("", "")
    let table_name := tc.1
    let column_name := tc.2
    let filter_value := filterValueOf e op
    let expression_string :=
      if !(pyIsEmpty table_name) && !(pyIsEmpty column_name) then
        if !(pyIsEmpty expression_string) && pyContains expression_string "IS PROMPTED" &&
            !(pyIsPrefixOf "\"" expression_string) then
          "\"" ++ table_name ++ "\".\"" ++ column_name ++ "\" IS PROMPTED"
        else if op == "in" &&
            (pyIsEmpty expression_string || !pyContains (pyToUpper expression_string) "IN") then
          if !(pyIsEmpty filter_value) then
            "\"" ++ table_name ++ "\".\"" ++ column_name ++ "\" IN (" ++
              pyReplace filter_value " | " ", " ++ ")"
          else
            "\"" ++ table_name ++ "\".\"" ++ column_name ++ "\" IN ()"
        else expression_string
      else expression_string
    [{ operator := op, parent_operator := parent_op,
       column_expression := expression_string, column_name := column_name,
       table_name := table_name, filter_value := filter_value }]

mutual
/-- Embedding of `parse_filter_expression(expr_elem, parent_op)` on a
present element (source lines 1204-1308): a logical and/or node recurses
into its `sawx:expr` children with itself as the parent operator and
concatenates the results; any other node yields its leaf rows. -/
def parseFilterExpr : Element → String → List FilterRow
  | e@(.mk _ _ _ _ ch), parent_op =>
    if isLogicalAndOr e then parseFilterKids ch (opOf e)
    else leafFilterRows e parent_op
/-- Recursion of `parseFilterExpr` over the `sawx:expr` children of a
logical node, concatenating results in document order. -/
def parseFilterKids : ElementList → String → List FilterRow
  | .nil, _ => []
  | .cons c cs, op =>
    (if matchStep ⟨"sawx:expr", none⟩ c then parseFilterExpr c op else []) ++
      parseFilterKids cs op
end

/-- Embedding of `parse_filter_expression` including the `None` case. -/
def parse_filter_expression (oe : Option Element) (parent_op : String := "") :
    List FilterRow :=
  match oe with
  | none => []
  | some e => parseFilterExpr e parent_op

/-! ## Specification-side leaf enumeration for the flattener -/

mutual
/-- Specification-side enumeration of a filter-expression tree: the
non-logical leaves in document order, each paired with the operator of its
immediately enclosing logical and/or node (`p` for a leaf at the root). -/
def leafList : Element → String → List (Element × String)
  | e@(.mk _ _ _ _ ch), p =>
    if isLogicalAndOr e then leafKids ch (opOf e) else [(e, p)]
/-- Leaf enumeration over the `sawx:expr` children of a logical node. -/
def leafKids : ElementList → String → List (Element × String)
  | .nil, _ => []
  | .cons c cs, op =>
    (if matchStep ⟨"sawx:expr", none⟩ c then leafList c op else []) ++ leafKids cs op
end

/-- Unfolding of `parseFilterKids` to the `findall`-then-extend shape used
by the source (`for child in findall(e, 'sawx:expr'): all.extend(...)`). -/
theorem parseFilterKids_eq_filter : ∀ (ch : ElementList) (op : String),
    parseFilterKids ch op =
      (ch.toList.filter (matchStep ⟨"sawx:expr", none⟩)).flatMap
        (fun c => parseFilterExpr c op)
  | .nil, _ => by simp [parseFilterKids, ElementList.toList]
  | .cons c cs, op => by
    by_cases h : matchStep ⟨"sawx:expr", none⟩ c
    · simp [parseFilterKids, ElementList.toList, h, parseFilterKids_eq_filter cs op]
    · simp [parseFilterKids, ElementList.toList, h, parseFilterKids_eq_filter cs op]

/-- On a logical and/or node, the flattener is the source's recursion: it
concatenates the flattening of the `sawx:expr` children, passing its own
operator as parent. -/
theorem parseFilterExpr_logical (e : Element) (p : String)
    (h : isLogicalAndOr e = true) :
    parseFilterExpr e p =
      (findall (some e) pSawxExpr).flatMap (fun c => parseFilterExpr c (opOf e)) := by
  obtain ⟨t, a, x, l, ch⟩ := e
  simp only [parseFilterExpr, h, if_true]
  rw [parseFilterKids_eq_filter]
  simp [findall, findallE, pSawxExpr, Element.childList]

/-- On a non-logical node, the flattener yields its leaf rows. -/
theorem parseFilterExpr_leaf (e : Element) (p : String)
    (h : isLogicalAndOr e = false) :
    parseFilterExpr e p = leafFilterRows e p := by
  obtain ⟨t, a, x, l, ch⟩ := e
  simp [parseFilterExpr, h]

/-- Flattening agrees with the specification-side leaf enumeration. -/
theorem parseFilterExpr_eq_leafList (e : Element) :
    ∀ p, parseFilterExpr e p =
      (leafList e p).flatMap (fun lp => leafFilterRows lp.1 lp.2) :=
  Element.rec
    (motive_1 := fun e => ∀ p, parseFilterExpr e p =
      (leafList e p).flatMap (fun lp => leafFilterRows lp.1 lp.2))
    (motive_2 := fun ch => ∀ op, parseFilterKids ch op =
      (leafKids ch op).flatMap (fun lp => leafFilterRows lp.1 lp.2))
    (fun t a x l ch ih p => by
      by_cases h : isLogicalAndOr (.mk t a x l ch)
      · simp only [parseFilterExpr, leafList, h, if_true]
        exact ih (opOf (.mk t a x l ch))
      · simp [parseFilterExpr, leafList, h])
    (fun _ => by simp [parseFilterKids, leafKids])
    (fun c cs ihc ihcs op => by
      by_cases h : matchStep ⟨"sawx:expr", none⟩ c
      · simp [parseFilterKids, leafKids, h, ihc, ihcs]
      · simp [parseFilterKids, leafKids, h, ihcs])
    e

/-- Every entry of the leaf enumeration is a non-logical node. -/
theorem leafList_nonlogical (e : Element) :
    ∀ p, ((leafList e p).all fun lp => !isLogicalAndOr lp.1) = true :=
  Element.rec
    (motive_1 := fun e => ∀ p,
      ((leafList e p).all fun lp => !isLogicalAndOr lp.1) = true)
    (motive_2 := fun ch => ∀ op,
      ((leafKids ch op).all fun lp => !isLogicalAndOr lp.1) = true)
    (fun t a x l ch ih p => by
      by_cases h : isLogicalAndOr (.mk t a x l ch)
      · simp only [leafList, h, if_true]
        exact ih (opOf (.mk t a x l ch))
      · simp [leafList, h])
    (fun _ => by simp [leafKids])
    (fun c cs ihc ihcs op => by
      by_cases h : matchStep ⟨"sawx:expr", none⟩ c
      · simp [leafKids, h, ihc, ihcs]
      · simp [leafKids, h, ihcs])
    e

/-- Rows emitted for a leaf all carry the passed parent operator. -/
theorem leafFilterRows_parent_op (l : Element) (q : String) :
    ((leafFilterRows l q).all fun r => r.parent_operator == q) = true := by
  unfold leafFilterRows
  by_cases h : (build_single_filter_expression (some l)).isEmpty
  · simp [h]
  · simp [h]

/-! ## Concrete filter-expression trees used as inputs -/

/-- Leaf `sqlExpression` element with the given text. -/
def sqlLeaf (txt : String) : Element :=
  ⟨"sawx:expr", [("xsi:type", "sawx:sqlExpression")], txt, "", EL []⟩

/-- Comparison leaf `"tbl"."col" = v`. -/
def cmpLeaf (tbl col v : String) : Element :=
  ⟨"sawx:expr", [("xsi:type", "sawx:comparison"), ("op", "equal")], "", "",
    EL [sqlLeaf ("\"" ++ tbl ++ "\".\"" ++ col ++ "\""),
        ⟨"sawx:expr", [("xsi:type", "xsd:string")], v, "", EL []⟩]⟩

/-- Logical `or` node over two children. -/
def orNode (a b : Element) : Element :=
  ⟨"sawx:expr", [("xsi:type", "sawx:logical"), ("op", "or")], "", "", EL [a, b]⟩

/-- Logical `and` node over two children. -/
def andNode (a b : Element) : Element :=
  ⟨"sawx:expr", [("xsi:type", "sawx:logical"), ("op", "and")], "", "", EL [a, b]⟩

/-- The tree `A and (B or C)` of claim C1. -/
def exC1 : Element :=
  andNode (cmpLeaf "T" "A" "1") (orNode (cmpLeaf "T" "B" "2") (cmpLeaf "T" "C" "3"))

/-- Comparison-typed `isNull` leaf whose single column child has empty
text: its rendered expression is empty, so the flattener drops it. -/
def nullLeafBad : Element :=
  ⟨"sawx:expr", [("xsi:type", "sawx:comparison"), ("op", "isNull")], "", "",
    EL [⟨"sawx:expr", [], "", "", EL []⟩]⟩

/-- Comparison-typed `isNull` leaf over the column `"T"."A"`. -/
def nullLeafGood : Element :=
  ⟨"sawx:expr", [("xsi:type", "sawx:comparison"), ("op", "isNull")], "", "",
    EL [sqlLeaf "\"T\".\"A\""]⟩

/-- An `in` leaf with zero value children over the column `"T"."A"`. -/
def inLeaf0 : Element :=
  ⟨"sawx:expr", [("xsi:type", "sawx:list"), ("op", "in")], "", "",
    EL [sqlLeaf "\"T\".\"A\""]⟩

/-- An `in` leaf with zero value children whose column text contains
`IS PROMPTED` and does not start with a quote, while `sqlExpression`
descendants still yield a table and column name: the reconstruction fix-up
rewrites its expression away from the `IN (...)` form. -/
def inLeafTricky : Element :=
  ⟨"sawx:expr", [("xsi:type", "sawx:list"), ("op", "in")], "", "",
    EL [sqlLeaf "A IS PROMPTED \"T\".\"C\""]⟩

/-! ## Substring lemmas -/

/-- Containment of a substring follows from list-infix of the character
lists. -/
theorem pyContains_of_infix {s sub : String} (h : sub.toList <:+: s.toList) :
    pyContains s sub = true := by
  rcases List.infix_iff_prefix_suffix.mp h with ⟨t, hpre, hsuf⟩
  unfold pyContains
  rw [List.any_eq_true]
  exact ⟨t, (List.mem_tails _ _).mpr hsuf, List.isPrefixOf_iff_prefix.mpr hpre⟩

/-- The uppercased rendering of an `IN` expression contains `IN`. -/
theorem upper_contains_IN (a b : String) :
    pyContains (pyToUpper (a ++ " IN (" ++ b)) "IN" = true := by
  apply pyContains_of_infix
  have hdata : (pyToUpper (a ++ " IN (" ++ b)).toList
      = a.toList.map Char.toUpper ++ ([' ', 'I', 'N', ' ', '('] ++ b.toList.map Char.toUpper) := by
    show ((a ++ " IN (" ++ b).toList.map Char.toUpper)
        = a.toList.map Char.toUpper ++ ([' ', 'I', 'N', ' ', '('] ++ b.toList.map Char.toUpper)
    show ((a ++ " IN (" ++ b).data.map Char.toUpper)
        = a.data.map Char.toUpper ++ ([' ', 'I', 'N', ' ', '('] ++ b.data.map Char.toUpper)
    rw [String.data_append, String.data_append, List.map_append, List.map_append,
      List.append_assoc]
    congr 1
  rw [hdata]
  exact ⟨a.toList.map Char.toUpper ++ [' '], [' ', '('] ++ b.toList.map Char.toUpper,
    by simp⟩

/-! ## Claim theorems for the flattener and the accessors -/

/-- C9: every Element Accessor operation is total: on an absent node,
`text` returns the empty string, `get_attr` the given default, `find`
`none` and `findall` the empty list; and `text` always returns the
whitespace-collapsed concatenation of all descendant text. -/
theorem claim9_accessors_total :
    text none = "" ∧ (∀ n d, get_attr none n d = d) ∧ (∀ p, find none p = none)
    ∧ (∀ p, findall none p = []) ∧ ∀ e, text (some e) = pyCollapseWS e.itertext :=
  ⟨rfl, fun _ _ => rfl, fun _ => rfl, fun _ => rfl, fun _ => rfl⟩

/-- C1: the flattener emits rows only for the non-logical leaves, in
document order; a logical and/or node itself produces no row; every
emitted row's parent operator is the operator of its immediately enclosing
logical node (empty at the root); and `A and (B or C)` flattens to exactly
three rows with parent operators `and`, `or`, `or`. -/
theorem claim1_flatten_leaves_parent_ops :
    (∀ e p, parse_filter_expression (some e) p
        = (leafList e p).flatMap fun lp => leafFilterRows lp.1 lp.2)
    ∧ (∀ e p, ((leafList e p).all fun lp => !isLogicalAndOr lp.1) = true)
    ∧ (∀ l q, ((leafFilterRows l q).all fun r => r.parent_operator == q) = true)
    ∧ (parse_filter_expression (some exC1) "").map (fun r => r.parent_operator)
        = ["and", "or", "or"] :=
  ⟨fun e p => by simpa [parse_filter_expression] using parseFilterExpr_eq_leafList e p,
   fun e p => leafList_nonlogical e p,
   fun l q => leafFilterRows_parent_op l q,
   by decide⟩

/-- C2 counterexample: a NULL-check leaf (comparison-typed `isNull` with an
empty column child) renders an empty expression string and is dropped by
the flattener, producing no row at all — even inside a logical tree. -/
theorem claim2_counterexample :
    opOf nullLeafBad = "isNull"
    ∧ parse_filter_expression (some nullLeafBad) "" = []
    ∧ ((parse_filter_expression (some (andNode nullLeafBad (cmpLeaf "T" "B" "2"))) "").map
        (fun r => r.operator)) = ["equal"] :=
  ⟨rfl, by decide, by decide⟩

/-- C2 (amended): every NULL-check leaf whose expression string renders
non-empty produces exactly one FilterCondition row, with an empty filter
value and the leaf's operator; a NULL-check leaf that renders an empty
expression is omitted. -/
theorem claim2_nullcheck_row (e : Element) (p : String)
    (hop : opOf e = "null" ∨ opOf e = "notNull" ∨ opOf e = "isNull" ∨ opOf e = "isNotNull")
    (hne : build_single_filter_expression (some e) ≠ "") :
    ∃ r, parse_filter_expression (some e) p = [r] ∧ r.filter_value = ""
      ∧ r.operator = opOf e ∧ r.parent_operator = p := by
  have hlog : isLogicalAndOr e = false := by
    unfold isLogicalAndOr
    rcases hop with h | h | h | h <;> simp [h]
  have hfv : filterValueOf e (opOf e) = "" := by
    unfold filterValueOf isComparisonOp
    rcases hop with h | h | h | h <;> simp [h]
  have hif : pyIsEmpty (build_single_filter_expression (some e)) = false := by
    rcases hb : pyIsEmpty (build_single_filter_expression (some e)) with _ | _
    · rfl
    · refine absurd ?_ hne
      have := List.isEmpty_iff.mp hb
      exact String.ext (by simpa [String.toList] using this)
  simp only [parse_filter_expression, parseFilterExpr_leaf e p hlog]
  unfold leafFilterRows
  simp only [hif, Bool.false_eq_true, if_false]
  exact ⟨_, rfl, hfv, rfl, rfl⟩

/-- Guard of the IS PROMPTED reconstruction fix-up at source lines
1292-1295: a table and a column name were extracted and the rendered
expression contains `IS PROMPTED` without starting with a double quote. -/
def promptFixupTriggers (e : Element) : Bool :=
  let es := build_single_filter_expression (some e)
  let tc := extractTableColumn (findall (some e) pDescSqlExpr) ("", "")
  !(pyIsEmpty tc.1) && !(pyIsEmpty tc.2) && !(pyIsEmpty es) &&
    pyContains es "IS PROMPTED" && !(pyIsPrefixOf "\"" es)

/-- C6 counterexample: an `in` leaf whose column child renders to the
non-empty text `A IS PROMPTED "T"."C"` is emitted, but the reconstruction
fix-up rewrites its expression to the IS PROMPTED form, not
`COLUMN IN ()`. -/
theorem claim6_counterexample :
    opOf inLeafTricky = "in"
    ∧ (findall (some inLeafTricky) pSawxExpr).length = 1
    ∧ text ((findall (some inLeafTricky) pSawxExpr).head?.bind some) ≠ ""
    ∧ (parse_filter_expression (some inLeafTricky) "").map (fun r => r.column_expression)
        = ["\"T\".\"C\" IS PROMPTED"]
    ∧ "\"T\".\"C\" IS PROMPTED"
        ≠ text ((findall (some inLeafTricky) pSawxExpr).head?.bind some) ++ " IN ()" :=
  ⟨rfl, rfl, by decide, by decide, by decide⟩

/-- C6 (amended): for every `in` filter leaf whose first (column) child
renders to non-empty text, provided the IS PROMPTED reconstruction fix-up
does not trigger (see `promptFixupTriggers`), the single emitted row's
expression is `COLUMN IN (v1, v2, ...)` over the remaining children (and
exactly `COLUMN IN ()` for zero values, never empty and never omitted),
and its filter value is the non-empty values joined by ` | `. -/
theorem claim6_in_rendering (e c0 : Element) (rest : List Element) (p : String)
    (hop : opOf e = "in")
    (hkids : findall (some e) pSawxExpr = c0 :: rest)
    (hc0 : text (some c0) ≠ "")
    (hfix : promptFixupTriggers e = false) :
    ∃ r, parse_filter_expression (some e) p = [r] ∧
      r.column_expression = text (some c0) ++ " IN (" ++
        String.intercalate ", " (rest.map fun c => text (some c)) ++ ")" ∧
      r.filter_value = String.intercalate " | "
        ((rest.map fun c => text (some c)).filter fun v => !(pyIsEmpty v)) := by
  have hlog : isLogicalAndOr e = false := by
    unfold isLogicalAndOr
    simp [hop]
  have hbse : build_single_filter_expression (some e)
      = text (some c0) ++ " IN (" ++
        String.intercalate ", " (rest.map fun c => text (some c)) ++ ")" := by
    unfold build_single_filter_expression
    cases rest with
    | nil =>
      simp [hop, hkids]
      have e1 : (", ".intercalate ([] : List String)) = "" := rfl
      have e2 : (("" : String) ++ ")") = ")" := rfl
      have e3 : ((" IN (" : String) ++ ")") = " IN ()" := rfl
      rw [e1, String.append_empty, String.append_assoc, e3]
    | cons v vs => simp [hop, hkids]
  have hne2 : pyIsEmpty (build_single_filter_expression (some e)) = false := by
    rw [hbse]
    simp [pyIsEmpty, String.toList, String.data_append]
  have hfv : filterValueOf e (opOf e) = String.intercalate " | "
      ((rest.map fun c => text (some c)).filter fun v => !(pyIsEmpty v)) := by
    rw [hop]
    unfold filterValueOf
    simp [hkids]
  have hup : pyContains (pyToUpper (build_single_filter_expression (some e))) "IN" = true := by
    rw [hbse, String.append_assoc]
    exact upper_contains_IN _ _
  have hrow : parse_filter_expression (some e) p = [(⟨opOf e, p,
      build_single_filter_expression (some e),
      (extractTableColumn (findall (some e) pDescSqlExpr) ("", "")).2,
      (extractTableColumn (findall (some e) pDescSqlExpr) ("", "")).1,
      filterValueOf e (opOf e)⟩ : FilterRow)] := by
    simp only [parse_filter_expression]
    rw [parseFilterExpr_leaf e p hlog]
    unfold leafFilterRows
    rcases hT1 : pyIsEmpty (extractTableColumn (findall (some e) pDescSqlExpr) ("", "")).1 with _ | _ <;>
      rcases hT2 : pyIsEmpty (extractTableColumn (findall (some e) pDescSqlExpr) ("", "")).2 with _ | _ <;>
        rcases hC : pyContains (build_single_filter_expression (some e)) "IS PROMPTED" with _ | _ <;>
          rcases hP : pyIsPrefixOf "\"" (build_single_filter_expression (some e)) with _ | _ <;>
            first
            | (simp [hne2, hT1, hT2, hC, hP, hop, hup]
               done)
            | (exfalso
               unfold promptFixupTriggers at hfix
               simp [hT1, hT2, hC, hP, hne2] at hfix)
  refine ⟨_, hrow, ?_, ?_⟩
  · exact hbse
  · exact hfv

/-- Witness for C6 at a concrete `in` leaf with zero value children. -/
theorem claim6_witness :
    ∃ r, parse_filter_expression (some inLeaf0) "w" = [r] ∧
      r.column_expression = text (some (sqlLeaf "\"T\".\"A\"")) ++ " IN (" ++
        String.intercalate ", " (([] : List Element).map fun c => text (some c)) ++ ")" ∧
      r.filter_value = String.intercalate " | "
        ((([] : List Element).map fun c => text (some c)).filter fun v => !(pyIsEmpty v)) :=
  claim6_in_rendering inLeaf0 (sqlLeaf "\"T\".\"A\"") [] "w" rfl rfl (by decide) (by decide)

/-- Witness for C2 at a concrete well-formed NULL-check leaf. -/
theorem claim2_witness :
    ∃ r, parse_filter_expression (some nullLeafGood) "and" = [r] ∧ r.filter_value = ""
      ∧ r.operator = opOf nullLeafGood ∧ r.parent_operator = "and" :=
  claim2_nullcheck_row nullLeafGood "and" (Or.inr (Or.inr (Or.inl rfl))) (by decide)

/-! ## XPath constants used by parse_report and the CSV builders -/

/-- Path `saw:criteria`. -/
def pSawCriteria : XPath := ⟨false, [⟨"saw:criteria", none⟩]⟩

/-- Path `.//saw:criteria`. -/
def pDescSawCriteria : XPath := ⟨true, [⟨"saw:criteria", none⟩]⟩

/-- Path `saw:views`. -/
def pSawViews : XPath := ⟨false, [⟨"saw:views", none⟩]⟩

/-- Path `saw:views/saw:view`. -/
def pViewsView : XPath := ⟨false, [⟨"saw:views", none⟩, ⟨"saw:view", none⟩]⟩

/-- Path `saw:views/saw:view[@xsi:type="saw:compoundView"]`. -/
def pViewsCompound : XPath :=
  ⟨false, [⟨"saw:views", none⟩, ⟨"saw:view", some ("xsi:type", "saw:compoundView")⟩]⟩

/-- Path `.//saw:cvCell`. -/
def pDescCvCell : XPath := ⟨true, [⟨"saw:cvCell", none⟩]⟩

/-- Path `saw:views/saw:view[@xsi:type="saw:dvtchart"]`. -/
def pViewsDvtchart : XPath :=
  ⟨false, [⟨"saw:views", none⟩, ⟨"saw:view", some ("xsi:type", "saw:dvtchart")⟩]⟩

/-- Path `saw:display`. -/
def pSawDisplay : XPath := ⟨false, [⟨"saw:display", none⟩]⟩

/-- Path `saw:criteria/saw:columns/saw:column`. -/
def pCriteriaColumns : XPath :=
  ⟨false, [⟨"saw:criteria", none⟩, ⟨"saw:columns", none⟩, ⟨"saw:column", none⟩]⟩

/-- Path `saw:tableHeading/saw:caption/saw:text`. -/
def pTableHeadingText : XPath :=
  ⟨false, [⟨"saw:tableHeading", none⟩, ⟨"saw:caption", none⟩, ⟨"saw:text", none⟩]⟩

/-- Path `saw:columnHeading/saw:caption/saw:text`. -/
def pColumnHeadingText : XPath :=
  ⟨false, [⟨"saw:columnHeading", none⟩, ⟨"saw:caption", none⟩, ⟨"saw:text", none⟩]⟩

/-- Path `saw:criteria/saw:columnOrder/saw:columnOrderRef`. -/
def pColumnOrderRef : XPath :=
  ⟨false, [⟨"saw:criteria", none⟩, ⟨"saw:columnOrder", none⟩, ⟨"saw:columnOrderRef", none⟩]⟩

/-- Path `.//saw:criteria/saw:filter`. -/
def pDescCriteriaFilter : XPath :=
  ⟨true, [⟨"saw:criteria", none⟩, ⟨"saw:filter", none⟩]⟩

/-! ## parse_report slice (source lines 515-761) -/

/-- Subject-area collection loop over nested criteria nodes (source lines
556-566): keep `simpleCriteria` nodes with a non-empty `subjectArea`,
strip surrounding quotes, and deduplicate preserving first occurrence. -/
def collectNestedSAs : List Element → List String → List String
  | [], acc => acc
  | crit :: rest, acc =>
    let xsi_t := stripPfx (get_attr (some crit) "xsi:type" "") "saw:"
    if xsi_t == "simpleCriteria" then
      let sa := get_attr (some crit) "subjectArea" ""
      if !(pyIsEmpty sa) then
        let sa_clean := pyStripChar '"' sa
        if acc.contains sa_clean then collectNestedSAs rest acc
        else collectNestedSAs rest (acc ++ [sa_clean])
      else collectNestedSAs rest acc
    else collectNestedSAs rest acc

/-- Subject-area resolution of `parse_report` (source lines 549-571): the
top-level criteria attribute when non-empty, otherwise the nested
`simpleCriteria` subject areas, deduplicated and joined with `\x20|\x20`. -/
def computeSubjectArea (root : Element) : String :=
  let criteria := find (some root) pSawCriteria
  let subject_area :=
    match criteria with
    | some c => get_attr (some c) "subjectArea" ""
    | none => ""
  if pyIsEmpty subject_area then
    let nested_sas := collectNestedSAs (findall (some root) pDescSawCriteria) []
    if !nested_sas.isEmpty then String.intercalate " | " nested_sas else subject_area
  else subject_area

/-- Report-level row of `parse_report` (source lines 577-583); only the
`subject_area` field is referenced by any claim, the other fields
(`report_file`, `xml_version`, `criteria_type`, `within_hierarchy`) are
constant strings never consulted downstream by the embedded builders. -/
structure ReportRow where
  subject_area : String
deriving Repr, DecidableEq

/-- Criteria column row of `parse_report` (source lines 588-610). -/
structure ColumnRow where
  column_id : String
  column_xsi_type : String
  expr_xsi_type : String
  expression : String
  table_heading : String
  column_heading : String
deriving Repr, DecidableEq

/-- Column-order row of `parse_report` (source lines 614-619). -/
structure ColumnOrderRow where
  column_id : String
  direction : String
deriving Repr, DecidableEq

/-- View row of `parse_report` (source lines 640-654); `report_file` is
omitted as above. -/
structure ViewRow where
  view_name : String
  view_name_raw : String
  view_xsi_type : String
  current_view : String
  in_compound_view : Bool
  compound_children_order : List String
  compound_children_order_raw : List String
deriving Repr, DecidableEq

/-- Chart row of `parse_report` (source lines 695-730); only the fields
the ChartType builder reads (`view_name`, `display_type`,
`display_subtype`) are modelled, the remaining style fields are never
consulted by any claim. -/
structure ChartRow where
  view_name : String
  display_type : String
  display_subtype : String
deriving Repr, DecidableEq

/-- Column extraction of `parse_report` (source lines 588-610). -/
def parseColumnRows (root : Element) : List ColumnRow :=
  (findall (some root) pCriteriaColumns).map (fun col =>
    let expr_elem := find (some col) pColumnFormulaExpr
    { column_id := get_attr (some col) "columnID" "",
      column_xsi_type := stripPfx (get_attr (some col) "xsi:type" "") "saw:",
      expr_xsi_type :=
        match expr_elem with
        | some ee => stripPfx (stripPfx (get_attr (some ee) "xsi:type" "") "saw:") "sawx:"
        | none => "",
      expression := text expr_elem,
      table_heading :=
        match find (some col) pTableHeadingText with
        | some th => text (some th)
        | none => "",
      column_heading :=
        match find (some col) pColumnHeadingText with
        | some chd => text (some chd)
        | none => "" })

/-- Column-order extraction of `parse_report` (source lines 614-619). -/
def parseColumnOrderRows (root : Element) : List ColumnOrderRow :=
  (findall (some root) pColumnOrderRef).map (fun order_ref =>
    { column_id := get_attr (some order_ref) "columnID" "",
      direction := get_attr (some order_ref) "direction" "" })

/-- View extraction of `parse_report` (source lines 622-654): the
`currentView` attribute of `saw:views`, the compound-view child order
recorded from `cvCell` `viewName` attributes (raw and normalized), and one
row per `saw:views/saw:view`. -/
def parseViewRows (root : Element) : List ViewRow :=
  let views_parent := find (some root) pSawViews
  let current_view_name :=
    match views_parent with
    | some v => get_attr (some v) "currentView" ""
    | none => ""
  let cvRaws := (findall (some root) pViewsCompound).flatMap (fun cv =>
    (findall (some cv) pDescCvCell).filterMap (fun cell =>
      let raw := get_attr (some cell) "viewName" ""
      if pyIsEmpty raw then none else some raw))
  let cvNorms := cvRaws.map normalize_view_name
  (findall (some root) pViewsView).map (fun view =>
    let view_name_raw := get_attr (some view) "name" ""
    let view_type := stripPfx (get_attr (some view) "xsi:type" "") "saw:"
    { view_name := normalize_view_name view_name_raw,
      view_name_raw := view_name_raw,
      view_xsi_type := view_type,
      current_view := current_view_name,
      in_compound_view := cvRaws.contains view_name_raw || view_type == "compoundView",
      compound_children_order := if view_type == "compoundView" then cvNorms else [],
      compound_children_order_raw := if view_type == "compoundView" then cvRaws else [] })

/-- Chart extraction of `parse_report` (source lines 695-730), restricted
to the fields the ChartType builder reads. -/
def parseChartRows (root : Element) : List ChartRow :=
  (findall (some root) pViewsDvtchart).map (fun chart =>
    let display := find (some chart) pSawDisplay
    { view_name := normalize_view_name (get_attr (some chart) "name" ""),
      display_type := get_attr display "type" "",
      display_subtype := get_attr display "subtype" "" })

/-- Result of `parse_report` (source lines 515-761): the returned tuple's
positions 0 (reports), 1 (columns), 2 (column orders), 3 (views) and
6 (charts), which are the ones the embedded CSV builders read.  Positions
4-5 and 7-9 (edges, edge layers, chart categories, chart measures, pivot
measures) feed only the axis/aggregation bookkeeping fields that no claim
mentions; the root document is kept for the filter re-parse done by
`create_filters_csv_data`. -/
structure ReportData where
  report_rows : List ReportRow
  column_rows : List ColumnRow
  column_order_rows : List ColumnOrderRow
  view_rows : List ViewRow
  chart_rows : List ChartRow
  root : Element
deriving Repr

/-- Embedding of `parse_report` on a parsed document root. -/
def parse_report (root : Element) : ReportData :=
  { report_rows := [⟨computeSubjectArea root⟩],
    column_rows := parseColumnRows root,
    column_order_rows := parseColumnOrderRows root,
    view_rows := parseViewRows root,
    chart_rows := parseChartRows root,
    root := root }

/-! ## Claim C7: subject-area resolution -/

/-- First-occurrence-order deduplication, with an accumulator. -/
def dedupFirstAux : List String → List String → List String
  | [], acc => acc
  | x :: xs, acc =>
    if acc.contains x then dedupFirstAux xs acc else dedupFirstAux xs (acc ++ [x])

/-- First-occurrence-order deduplication. -/
def dedupFirst (l : List String) : List String := dedupFirstAux l []

/-- Top-level criteria subject area of a report document. -/
def topSubjectArea (root : Element) : String :=
  match find (some root) pSawCriteria with
  | some c => get_attr (some c) "subjectArea" ""
  | none => ""

/-- Specification-side predicate: a nested criteria node contributing a
subject area (a `simpleCriteria` with a non-empty `subjectArea`). -/
def contributesSA (crit : Element) : Bool :=
  stripPfx (get_attr (some crit) "xsi:type" "") "saw:" == "simpleCriteria" &&
    !(pyIsEmpty (get_attr (some crit) "subjectArea" ""))

/-- Specification-side list of nested subject areas in document order,
quotes stripped, before deduplication. -/
def nestedSubjectAreas (root : Element) : List String :=
  ((findall (some root) pDescSawCriteria).filter contributesSA).map
    (fun crit => pyStripChar '"' (get_attr (some crit) "subjectArea" ""))

/-- The one-pass collection loop equals filter, map and dedup composed. -/
theorem collectNestedSAs_eq : ∀ (l : List Element) (acc : List String),
    collectNestedSAs l acc
      = dedupFirstAux ((l.filter contributesSA).map
          (fun crit => pyStripChar '"' (get_attr (some crit) "subjectArea" ""))) acc
  | [], _ => rfl
  | crit :: rest, acc => by
    by_cases h1 : stripPfx (get_attr (some crit) "xsi:type" "") "saw:" == "simpleCriteria"
    · by_cases h2 : pyIsEmpty (get_attr (some crit) "subjectArea" "")
      · simp [collectNestedSAs, contributesSA, h1, h2, collectNestedSAs_eq rest acc]
      · simp [collectNestedSAs, contributesSA, h1, h2, dedupFirstAux,
          collectNestedSAs_eq rest acc,
          collectNestedSAs_eq rest
            (acc ++ [pyStripChar '"' (get_attr (some crit) "subjectArea" "")])]
    · simp [collectNestedSAs, contributesSA, h1, collectNestedSAs_eq rest acc]

/-- Emptiness test agrees with equality to the empty string. -/
theorem pyIsEmpty_iff (s : String) : pyIsEmpty s = true ↔ s = "" := by
  constructor
  · intro h
    apply String.ext
    simpa [pyIsEmpty, String.toList] using List.isEmpty_iff.mp h
  · intro h
    simp [h, pyIsEmpty, String.toList]
  -- pyIsEmpty "" computes to true

/-- A document root for the ambiguous-subject-area scenario: no top-level
subject area, three nested `simpleCriteria` with areas `"A"`, `B`, `"A"`. -/
def exC7 : Element :=
  ⟨"saw:report", [], "", "",
    EL [⟨"saw:criteria", [("xsi:type", "saw:derivedCriteria")], "", "",
          EL [⟨"saw:criteria", [("xsi:type", "saw:simpleCriteria"), ("subjectArea", "\"A\"")], "", "", EL []⟩,
              ⟨"saw:criteria", [("xsi:type", "saw:simpleCriteria"), ("subjectArea", "B")], "", "", EL []⟩,
              ⟨"saw:criteria", [("xsi:type", "saw:simpleCriteria"), ("subjectArea", "\"A\"")], "", "", EL []⟩]⟩]⟩

/-- C7: subject-area resolution is total and deterministic: when the
top-level criteria `subjectArea` is non-empty it is used unchanged, and
otherwise the result is the nested `simpleCriteria` subject areas with
surrounding quotes stripped, deduplicated in first-occurrence order and
joined with `\x20|\x20` (the empty string when there are none); on the
concrete ambiguous document `exC7` the result is `A | B`. -/
theorem claim7_subject_area :
    (∀ root : Element, computeSubjectArea root =
      if pyIsEmpty (topSubjectArea root) then
        String.intercalate " | " (dedupFirst (nestedSubjectAreas root))
      else topSubjectArea root)
    ∧ computeSubjectArea exC7 = "A | B" := by
  constructor
  · intro root
    have hsame : collectNestedSAs (findall (some root) pDescSawCriteria) []
        = dedupFirst (nestedSubjectAreas root) := by
      rw [collectNestedSAs_eq]
      rfl
    have htop : (match find (some root) pSawCriteria with
        | some c => get_attr (some c) "subjectArea" ""
        | none => "") = topSubjectArea root := rfl
    unfold computeSubjectArea
    dsimp only
    rw [hsame, htop]
    by_cases h : pyIsEmpty (topSubjectArea root)
    · rcases hn : (dedupFirst (nestedSubjectAreas root)).isEmpty with _ | _
      · simp [h, hn]
      · have hnil : dedupFirst (nestedSubjectAreas root) = [] := List.isEmpty_iff.mp hn
        have ht0 : topSubjectArea root = "" := (pyIsEmpty_iff _).mp h
        simp [h, hn, hnil, ht0]
        rfl
    · simp [h]
  · rfl

/-! ## create_charttype_csv_data per-report core (source lines 2093-2224) -/

/-- Output row of the ChartType builder; the constant naming/path fields
(`WorksheetName`, `DashboardName`, `ReportName`, `ReportNameTag`,
`TitleText`, `Reason`, paths) are copied verbatim from the report view
record and are not referenced by any claim. -/
structure ChartTypeRow where
  view_id : String
  view_type : String
  chart_type : String
  is_current_view : String
deriving Repr, DecidableEq

/-- Chart-type resolution per view (source lines 2127-2144 and
2174-2189): `dvtchart` views look up their chart row by normalized view
name. -/
def chartTypeOf (view_type view_name : String) (chart_rows : List ChartRow) : String :=
  if view_type == "dvtchart" then
    match chart_rows.find? (fun c => c.view_name == view_name) with
    | some chart_info =>
      if !(pyIsEmpty chart_info.display_subtype) then
        chart_info.display_type ++ "_" ++ chart_info.display_subtype
      else chart_info.display_type
    | none => "chart"
  else if view_type == "tableView" then "table"
  else if view_type == "pivotTableView" then "pivot"
  else if view_type == "titleView" then "title"
  else view_type

/-- Selected raw child name of a compound view (source lines 2106-2115):
the numeric `currentView` index into the recorded raw child order, when it
is a decimal string in range; empty otherwise. -/
def selectedChildRaw (cv : ViewRow) : String :=
  if pyIsDigit cv.current_view then
    if pyToNat cv.current_view < cv.compound_children_order_raw.length then
      cv.compound_children_order_raw.getD (pyToNat cv.current_view) ""
    else ""
  else ""

/-- Per-report core of `create_charttype_csv_data` (source lines
2093-2224): with a compound view (the first one in document order), every
non-compound view is emitted and marked `Yes` exactly when its raw name
equals the selected child; without one, all views are emitted with `No`. -/
def charttypeRowsForReportData (rd : ReportData) : List ChartTypeRow :=
  match rd.view_rows.find? (fun v => v.view_xsi_type == "compoundView") with
  | some compound_view =>
    let selected := selectedChildRaw compound_view
    (rd.view_rows.filter (fun v => v.view_xsi_type != "compoundView")).map (fun v =>
      { view_id := v.view_name_raw, view_type := v.view_xsi_type,
        chart_type := chartTypeOf v.view_xsi_type v.view_name rd.chart_rows,
        is_current_view := if v.view_name_raw == selected then "Yes" else "No" })
  | none =>
    rd.view_rows.map (fun v =>
      { view_id := v.view_name_raw, view_type := v.view_xsi_type,
        chart_type := chartTypeOf v.view_xsi_type v.view_name rd.chart_rows,
        is_current_view := "No" })

/-- C3: for a report whose (first) compound view has a decimal
`currentView` index `i` in range of its recorded raw child order, the
ChartType output emits every non-compound view and marks `IsCurrentView`
`Yes` exactly on rows whose raw view name is the child at zero-based
position `i` (the selected view is marked, not filtered out). -/
theorem claim3_current_view_marking (rd : ReportData) (cv : ViewRow) (i : Nat)
    (hfind : rd.view_rows.find? (fun v => v.view_xsi_type == "compoundView") = some cv)
    (hdigit : pyIsDigit cv.current_view = true)
    (hi : pyToNat cv.current_view = i)
    (hlt : i < cv.compound_children_order_raw.length) :
    charttypeRowsForReportData rd
      = ((rd.view_rows.filter (fun v => v.view_xsi_type != "compoundView")).map (fun v =>
          (⟨v.view_name_raw, v.view_xsi_type,
            chartTypeOf v.view_xsi_type v.view_name rd.chart_rows,
            if v.view_name_raw == cv.compound_children_order_raw.getD i "" then "Yes"
            else "No"⟩ : ChartTypeRow)))
      ∧ ∀ r ∈ charttypeRowsForReportData rd,
          (r.is_current_view = "Yes" ↔ r.view_id = cv.compound_children_order_raw.getD i "") := by
  have hsel : selectedChildRaw cv = cv.compound_children_order_raw.getD i "" := by
    unfold selectedChildRaw
    rw [hdigit, hi]
    simp [hlt]
  have hrows : charttypeRowsForReportData rd
      = ((rd.view_rows.filter (fun v => v.view_xsi_type != "compoundView")).map (fun v =>
          (⟨v.view_name_raw, v.view_xsi_type,
            chartTypeOf v.view_xsi_type v.view_name rd.chart_rows,
            if v.view_name_raw == cv.compound_children_order_raw.getD i "" then "Yes"
            else "No"⟩ : ChartTypeRow))) := by
    unfold charttypeRowsForReportData
    rw [hfind]
    dsimp only
    rw [hsel]
  refine ⟨hrows, ?_⟩
  intro r hr
  rw [hrows] at hr
  rcases List.mem_map.mp hr with ⟨v, _, hveq⟩
  subst hveq
  by_cases hv2 : v.view_name_raw = cv.compound_children_order_raw.getD i ""
  · simp [hv2]
  · simp [hv2]

/-- Report document for the C3 scenario: compound view with raw child
order `pivotTableView!1, pivotTableView!2, tableView!1` and current-view
index `2`. -/
def exC3Root : Element :=
  ⟨"saw:report", [], "", "",
    EL [⟨"saw:views", [("currentView", "2")], "", "",
      EL [⟨"saw:view", [("xsi:type", "saw:compoundView"), ("name", "compoundView!1")], "", "",
            EL [⟨"saw:cvTable", [], "", "",
                  EL [⟨"saw:cvRow", [], "", "",
                        EL [⟨"saw:cvCell", [("viewName", "pivotTableView!1")], "", "", EL []⟩,
                            ⟨"saw:cvCell", [("viewName", "pivotTableView!2")], "", "", EL []⟩,
                            ⟨"saw:cvCell", [("viewName", "tableView!1")], "", "", EL []⟩]⟩]⟩]⟩,
          ⟨"saw:view", [("xsi:type", "saw:pivotTableView"), ("name", "pivotTableView!1")], "", "", EL []⟩,
          ⟨"saw:view", [("xsi:type", "saw:pivotTableView"), ("name", "pivotTableView!2")], "", "", EL []⟩,
          ⟨"saw:view", [("xsi:type", "saw:tableView"), ("name", "tableView!1")], "", "", EL []⟩]⟩]⟩

/-- Witness for C3 on the concrete document `exC3Root`: index 2 selects
`tableView!1`. -/
theorem claim3_witness :
    charttypeRowsForReportData (parse_report exC3Root)
      = (((parse_report exC3Root).view_rows.filter
            (fun v => v.view_xsi_type != "compoundView")).map (fun v =>
          (⟨v.view_name_raw, v.view_xsi_type,
            chartTypeOf v.view_xsi_type v.view_name (parse_report exC3Root).chart_rows,
            if v.view_name_raw
                == (["pivotTableView!1", "pivotTableView!2", "tableView!1"].getD 2 "") then "Yes"
            else "No"⟩ : ChartTypeRow)))
      ∧ ∀ r ∈ charttypeRowsForReportData (parse_report exC3Root),
          (r.is_current_view = "Yes"
            ↔ r.view_id = ["pivotTableView!1", "pivotTableView!2", "tableView!1"].getD 2 "") :=
  claim3_current_view_marking (parse_report exC3Root)
    ⟨"compoundView", "compoundView!1", "compoundView", "2", true,
      ["pivotTableView", "pivotTableView", "tableView"],
      ["pivotTableView!1", "pivotTableView!2", "tableView!1"]⟩ 2
    (by decide) (by decide) (by decide) (by decide)

/-! ## Dashboard report-view records and the reports map -/

/-- Dashboard(-like) report-view record, as synthesized by
`_synthesize_dashboard_report_views_from_reports` (source lines 2646-2658)
and consumed by the CSV builders. -/
structure ReportView where
  page_name : String
  dashboard_name : String
  section_name : String
  column_name : String
  display : String
  duid : String
  page_file : String
  report_view_name : String
  caption : String
  report_path : String
  report_type : String
deriving Repr, DecidableEq

/-- Entry of `reports_map` (source lines 1705-1709). -/
structure ReportEntry where
  file_path : String
  report_path : String
  report_data : ReportData
deriving Repr

/-- Lookup in the case-insensitive map `{k.lower(): v for k, v in m}`:
later duplicate keys overwrite earlier ones, so the last match wins.  The
`key` argument is already lowercased by the caller. -/
def lookupLowerLast {α : Type} (m : List (String × α)) (key : String) : Option α :=
  ((m.filter (fun kv => pyToLower kv.1 == key)).getLast?).map (fun kv => kv.2)

/-- Lookup in the basename fallback map (source lines 1780-1787 build it
keeping the first non-empty basename).  The `base` argument is already
lowercased by the caller. -/
def lookupBasenameFirst {α : Type} (m : List (String × α)) (base : String) : Option α :=
  ((m.filter (fun kv =>
    let b := pyToLower (pyBasename (pyStripChar '/' kv.1))
    !(pyIsEmpty b) && b == base)).head?).map (fun kv => kv.2)

/-- Report lookup shared by the three CSV builders (e.g. source lines
1801-1808): URL-decode the view's report path, try the lowercased full
path, then the lowercased basename. -/
def lookupReportInfo (reports_map : List (String × ReportEntry)) (report_path : String) :
    Option ReportEntry :=
  let decoded := pyUnquote report_path
  match lookupLowerLast reports_map (pyToLower decoded) with
  | some e => some e
  | none => lookupBasenameFirst reports_map (pyToLower (pyBasename (pyStripChar '/' decoded)))

/-! ## Quoted-pair and VALUEOF extraction (source lines 1884-1911) -/

/-- Caseless literal match of a pattern against a prefix, returning the
rest on success. -/
def matchCaseless : List Char → List Char → Option (List Char)
  | [], cs => some cs
  | _ :: _, [] => none
  | p :: ps, c :: cs =>
    if Char.toLower p == Char.toLower c then matchCaseless ps cs else none

/-- Attempted match of `"([^"\\]+)"\s*\.\s*"([^"\\]+)"` at the head of the
list, returning both captures and the remainder. -/
def tryPairAt (cs : List Char) : Option (String × String × List Char) :=
  match cs with
  | '"' :: r1 =>
    let t := r1.takeWhile (fun c => !(c == '"' || c == '\\'))
    if t.isEmpty then none
    else
      match r1.drop t.length with
      | '"' :: r2 =>
        match r2.dropWhile pyIsSpace with
        | '.' :: r4 =>
          match r4.dropWhile pyIsSpace with
          | '"' :: r6 =>
            let u := r6.takeWhile (fun c => !(c == '"' || c == '\\'))
            if u.isEmpty then none
            else
              match r6.drop u.length with
              | '"' :: r7 => some (String.mk t, String.mk u, r7)
              | _ => none
          | _ => none
        | _ => none
      | _ => none
  | _ => none

/-- Scan of `re.findall` for the quoted-pair pattern: leftmost,
non-overlapping (fuel-driven; the fuel starts at the list length, which
suffices since every match consumes at least one character). -/
def pairScanFuel : Nat → List Char → List (String × String)
  | 0, _ => []
  | _ + 1, [] => []
  | n + 1, c :: rest =>
    match tryPairAt (c :: rest) with
    | some (t, u, remaining) => (t, u) :: pairScanFuel n remaining
    | none => pairScanFuel n rest

/-- All `"Table"."Column"` pairs of an expression, in match order
(`re.findall(r'"([^"\\]+)"\s*\.\s*"([^"\\]+)"', expression)`). -/
def extractQuotedPairs (s : String) : List (String × String) :=
  pairScanFuel s.toList.length s.toList

/-- First-occurrence deduplication of pairs (the `seen_pairs` set of
source lines 1890-1896). -/
def dedupPairsAux : List (String × String) → List (String × String) → List (String × String)
  | [], acc => acc
  | p :: ps, acc =>
    if acc.contains p then dedupPairsAux ps acc else dedupPairsAux ps (acc ++ [p])

/-- Attempted match of `VALUEOF\s*\(\s*([^)]+)\s*\)` (case-insensitive) at
the head of the list, returning the capture with leading whitespace
dropped (trailing whitespace inside the capture does not affect any
downstream use). -/
def tryValueofAt (cs : List Char) : Option String :=
  match matchCaseless "VALUEOF".toList cs with
  | some r1 =>
    match r1.dropWhile pyIsSpace with
    | '(' :: r3 =>
      let content := r3.takeWhile (fun c => !(c == ')'))
      if content.isEmpty then none
      else
        match r3.drop content.length with
        | ')' :: _ => some (String.mk (content.dropWhile pyIsSpace))
        | _ => none
    | _ => none
  | none => none

/-- Leftmost `re.search` for the VALUEOF pattern. -/
def valueofScan : List Char → Option String
  | [] => none
  | c :: cs =>
    match tryValueofAt (c :: cs) with
    | some cap => some cap
    | none => valueofScan cs

/-! ## create_worksheets_csv_data per-report core (source lines 1771-2050) -/

/-- Output row of the Worksheets builder; the axis/aggregation and
constant naming/path fields (`X`, `Y`, `Encoding`, `MeasureType`,
`RiserType`, `Summerized_by`, `IsDerived`, `SourceColumnIds`,
`SourceExpressions`, `ColumnType`, `ExpressionType`, dashboard and path
columns) do not affect row emission and are not referenced by any claim;
they are omitted from the row model. -/
structure WorksheetRow where
  page_name : String
  report_name : String
  view_id : String
  data_source_name : String
  table_names : String
  column_names : String
  formula : String
  column_id : String
deriving Repr, DecidableEq

/-- Table/column name resolution for one column (source lines 1878-1920):
deduplicated `"Table"."Column"` pairs from the expression, a VALUEOF
table/column when present, and the heading fallback when both lists are
still empty. -/
def resolveTableColumnNames (col : ColumnRow) : List String × List String :=
  let expression := col.expression
  let pairs := if !(pyIsEmpty expression) then dedupPairsAux (extractQuotedPairs expression) [] else []
  let table_names0 := pairs.map (fun p => p.1)
  let column_names0 := pairs.map (fun p => p.2)
  let tc1 :=
    if pyContains (pyToUpper expression) "VALUEOF" && pyContains expression "." then
      match valueofScan expression.toList with
      | some content =>
        if pyContains content "." then
          match pySplitOnChar '.' content with
          | p0 :: p1 :: _ => (table_names0 ++ [pyStrip p0], column_names0 ++ [pyStrip p1])
          | _ => (table_names0, column_names0)
        else (table_names0, column_names0)
      | none => (table_names0, column_names0)
    else (table_names0, column_names0)
  if tc1.1.isEmpty && tc1.2.isEmpty then
    ((if !(pyIsEmpty col.table_heading) then [col.table_heading] else []),
     (if !(pyIsEmpty col.column_heading) then [col.column_heading] else []))
  else tc1

/-- Fixed denylist of known-bad legacy tables (source lines 1975-1981). -/
def bannedTables : List String :=
  ["volume", "key reporting fields", "actual ship date additional information",
   "invoice date additional information", "scheduled pick date additional information"]

/-- Does the table-name set intersect the denylist (source lines
1982-1984, comparing stripped lowercased tokens)? -/
def bannedTablesHit (table_names : List String) : Bool :=
  table_names.any (fun t => bannedTables.contains (pyToLower (pyStrip t)))

/-- Does the exact pipe-joined table-name string match a banned union
(source lines 1988-1992, case-insensitive)? -/
def bannedUnionHit (joined : String) : Bool :=
  pyToLower (pyStrip joined) == "scheduled pick date|transaction details|as of date"

/-- Rows emitted for one column of a found report (source lines
1873-2023): resolve table/column names, apply the IFERROR, denylist and
banned-union skip guards, then emit one row per `ViewId`. -/
def worksheetRowsForColumn (rv : ReportView) (subject_area : String)
    (ids_to_emit : List String) (col : ColumnRow) : List WorksheetRow :=
  let tc := resolveTableColumnNames col
  let table_names := tc.1
  let column_names := tc.2
  let table_names_joined := String.intercalate "|" table_names
  if pyContains (pyToUpper table_names_joined) "IFERROR" then []
  else if !table_names.isEmpty && bannedTablesHit table_names then []
  else if !(pyIsEmpty table_names_joined) && bannedUnionHit table_names_joined then []
  else
    (if ids_to_emit.isEmpty then [""] else ids_to_emit).map (fun vid =>
      { page_name := rv.page_name, report_name := rv.caption, view_id := vid,
        data_source_name := subject_area, table_names := table_names_joined,
        column_names := String.intercalate "|" column_names,
        formula := col.expression, column_id := col.column_id })

/-- Placeholder row for a report view whose report was not found (source
lines 2025-2048). -/
def worksheetPlaceholderRow (rv : ReportView) : WorksheetRow :=
  { page_name := rv.page_name, report_name := rv.caption, view_id := "",
    data_source_name := "", table_names := "", column_names := "",
    formula := "", column_id := "" }

/-- Rows emitted for one report view (source lines 1790-2048). -/
def worksheetRowsForRv (rv : ReportView) (reports_map : List (String × ReportEntry)) :
    List WorksheetRow :=
  match lookupReportInfo reports_map rv.report_path with
  | some info =>
    let rd := info.report_data
    let subject_area :=
      match rd.report_rows.head? with
      | some r0 => pyStripChar '"' r0.subject_area
      | none => ""
    let ids_to_emit := dedupFirst
      ((((rd.view_rows.filter (fun v => v.view_xsi_type != "compoundView")).map
          (fun v => v.view_name_raw)).filter (fun raw => !(pyIsEmpty raw))))
    rd.column_rows.flatMap (fun col => worksheetRowsForColumn rv subject_area ids_to_emit col)
  | none => [worksheetPlaceholderRow rv]

/-- Embedding of `create_worksheets_csv_data` (source lines 1771-2050). -/
def create_worksheets_csv_data (rvs : List ReportView)
    (reports_map : List (String × ReportEntry)) : List WorksheetRow :=
  rvs.flatMap (fun rv => worksheetRowsForRv rv reports_map)

/-! ## _filter_erroneous_tablenames_rows (source lines 56-87) -/

/-- Expect one specific character. -/
def expectChar (c : Char) : List Char → Option (List Char)
  | x :: xs => if x == c then some xs else none
  | [] => none

/-- Match `\s+`: at least one whitespace character, greedily. -/
def expectWS1 : List Char → Option (List Char)
  | x :: xs => if pyIsSpace x then some (xs.dropWhile pyIsSpace) else none
  | [] => none

/-- Match `\d+`: at least one digit, greedily. -/
def expectDigits1 (cs : List Char) : Option (List Char) :=
  let ds := cs.takeWhile Char.isDigit
  if ds.isEmpty then none else some (cs.drop ds.length)

/-- Match `\s*,\s*` followed by a caseless literal item. -/
def matchCommaSep (item : String) (cs : List Char) : Option (List Char) := do
  let cs ← expectChar ',' (cs.dropWhile pyIsSpace)
  matchCaseless item.toList (cs.dropWhile pyIsSpace)

/-- Match the fixed `by`-clause
`saw_1\s*,\s*saw_2\s*,\s*saw_3\s*,\s*saw_0\s*,\s*saw_10\s*,\s*saw_11\s*,\s*saw_12`. -/
def matchByClause (cs : List Char) : Option (List Char) := do
  let cs ← matchCaseless "saw_1".toList cs
  let cs ← matchCommaSep "saw_2" cs
  let cs ← matchCommaSep "saw_3" cs
  let cs ← matchCommaSep "saw_0" cs
  let cs ← matchCommaSep "saw_10" cs
  let cs ← matchCommaSep "saw_11" cs
  matchCommaSep "saw_12" cs

/-- Match one `SUM\s*\(saw_\d+\s+by\s+<by-clause>\)` term (caseless). -/
def matchSumTerm (cs : List Char) : Option (List Char) := do
  let cs ← matchCaseless "SUM".toList cs
  let cs ← expectChar '(' (cs.dropWhile pyIsSpace)
  let cs ← matchCaseless "saw_".toList cs
  let cs ← expectDigits1 cs
  let cs ← expectWS1 cs
  let cs ← matchCaseless "by".toList cs
  let cs ← expectWS1 cs
  let cs ← matchByClause cs
  expectChar ')' cs

/-- Embedding of the anchored, case-insensitive regular expression of
`_filter_erroneous_tablenames_rows` (source lines 70-74):
`^\s*SUM\s*\(saw_\d+\s+by\s+...\)\s*-\s*SUM\s*\(saw_\d+\s+by\s+...\)\s*$`. -/
def sumSumPattern (s : String) : Bool :=
  match matchSumTerm (s.toList.dropWhile pyIsSpace) with
  | some cs =>
    match expectChar '-' (cs.dropWhile pyIsSpace) with
    | some cs =>
      match matchSumTerm (cs.dropWhile pyIsSpace) with
      | some cs => (cs.dropWhile pyIsSpace).isEmpty
      | none => false
    | none => false
  | none => false

/-- Keep-predicate of `_filter_erroneous_tablenames_rows` (source lines
76-87): drop rows whose stripped `TableNames` is empty or matches the
SUM(...)-SUM(...) pattern. -/
def keepTableNamesRow (r : WorksheetRow) : Bool :=
  let tval := pyStrip r.table_names
  !(pyIsEmpty tval) && !(sumSumPattern tval)

/-- Embedding of `_filter_erroneous_tablenames_rows` (source lines
56-87): the kept rows and the removed count. -/
def filter_erroneous_tablenames_rows (rows : List WorksheetRow) :
    List WorksheetRow × Nat :=
  let kept := rows.filter keepTableNamesRow
  (kept, rows.length - kept.length)

/-- Embedding of the anchored `_normalize_columnnames_biserver_variables`
regular expression (source lines 103-104):
`^\s*@\x7b\s*biServer\.variables\[(['"])Rvar_Curr_MonthName\1\]\s*\x7d\s*$`
(case-insensitive, with a back-reference forcing matching quotes). -/
def biserverVarPattern (s : String) : Bool :=
  let step : Option (List Char) := do
    let cs ← expectChar '@' (s.toList.dropWhile pyIsSpace)
    let cs ← expectChar (Char.ofNat 123) cs
    let cs ← matchCaseless "biServer.variables[".toList (cs.dropWhile pyIsSpace)
    match cs with
    | q :: cs =>
      if q == '\'' || q == '"' then do
        let cs ← matchCaseless "Rvar_Curr_MonthName".toList cs
        let cs ← expectChar q cs
        let cs ← expectChar ']' cs
        let cs ← expectChar (Char.ofNat 125) (cs.dropWhile pyIsSpace)
        some cs
      else none
    | [] => none
  match step with
  | some cs => (cs.dropWhile pyIsSpace).isEmpty
  | none => false

/-- Embedding of `_normalize_columnnames_biserver_variables` (source
lines 89-111): rewrite matching `ColumnNames` in place, count replacements. -/
def normalize_columnnames_biserver_variables (rows : List WorksheetRow) :
    List WorksheetRow × Nat :=
  (rows.map (fun r =>
      if biserverVarPattern r.column_names then { r with column_names := "Rvar_Curr_MonthName" }
      else r),
   (rows.filter (fun r => biserverVarPattern r.column_names)).length)

/-- Worksheets rows as written by `main` (source lines 2793-2800): the
builder output after both post-processing passes. -/
def worksheetsFinal (rvs : List ReportView)
    (reports_map : List (String × ReportEntry)) : List WorksheetRow :=
  (normalize_columnnames_biserver_variables
    (filter_erroneous_tablenames_rows (create_worksheets_csv_data rvs reports_map)).1).1

/-- C5: in the final Worksheets output no row has blank `TableNames` or a
SUM(...)-SUM(...) `TableNames`; any column whose resolved table-name set
intersects the denylist is dropped at emission; and any column whose exact
pipe-joined table names equal the banned union string (case-insensitive)
is dropped at emission. -/
theorem claim5_worksheets_filtering :
    (∀ rvs m, ((worksheetsFinal rvs m).all fun r =>
        !(pyIsEmpty (pyStrip r.table_names)) && !(sumSumPattern (pyStrip r.table_names))) = true)
    ∧ (∀ rv s ids col, bannedTablesHit (resolveTableColumnNames col).1 = true →
        worksheetRowsForColumn rv s ids col = [])
    ∧ (∀ rv s ids col,
        pyToLower (pyStrip (String.intercalate "|" (resolveTableColumnNames col).1))
          = "scheduled pick date|transaction details|as of date" →
        worksheetRowsForColumn rv s ids col = []) := by
  refine ⟨?_, ?_, ?_⟩
  · intro rvs m
    rw [List.all_eq_true]
    intro r hr
    have hr' : r ∈ ((create_worksheets_csv_data rvs m).filter keepTableNamesRow).map
        (fun r => if biserverVarPattern r.column_names then
          { r with column_names := "Rvar_Curr_MonthName" } else r) := hr
    rcases List.mem_map.mp hr' with ⟨r0, hr0, hEq⟩
    have hk : keepTableNamesRow r0 = true := List.of_mem_filter hr0
    have htn : r.table_names = r0.table_names := by
      rw [← hEq]
      by_cases hb : biserverVarPattern r0.column_names
      · simp [hb]
      · simp [hb]
    unfold keepTableNamesRow at hk
    rw [htn]
    exact hk
  · intro rv s ids col h
    have hne : (resolveTableColumnNames col).1 ≠ [] := by
      rcases List.any_eq_true.mp h with ⟨x, hx, _⟩
      exact List.ne_nil_of_mem hx
    unfold worksheetRowsForColumn
    by_cases hIF : pyContains (pyToUpper (String.intercalate "|"
        (resolveTableColumnNames col).1)) "IFERROR"
    · simp [hIF]
    · simp [hIF, h, List.isEmpty_iff, hne]
  · intro rv s ids col h
    have hju : bannedUnionHit (String.intercalate "|" (resolveTableColumnNames col).1) = true := by
      unfold bannedUnionHit
      rw [h]
      rfl
    have hnj : pyIsEmpty (String.intercalate "|" (resolveTableColumnNames col).1) = false := by
      rcases hb : pyIsEmpty (String.intercalate "|" (resolveTableColumnNames col).1) with _ | _
      · rfl
      · rw [(pyIsEmpty_iff _).mp hb] at h
        exact absurd h (by decide)
    unfold worksheetRowsForColumn
    by_cases hIF : pyContains (pyToUpper (String.intercalate "|"
        (resolveTableColumnNames col).1)) "IFERROR"
    · simp [hIF]
    · by_cases hg2 : !(resolveTableColumnNames col).1.isEmpty
          && bannedTablesHit (resolveTableColumnNames col).1
      · simp [hIF, hg2]
      · simp [hIF, hg2, hju, hnj]

/-- Report view used by the Worksheets witnesses. -/
def rvW : ReportView :=
  ⟨"p", "d", "", "", "", "", "", "", "cap", "/shared/r", "report"⟩

/-- Column resolving to the denylisted table set `Volume`. -/
def colVolume : ColumnRow :=
  ⟨"saw_0", "regularColumn", "sqlExpression", "\"Volume\".\"X\"", "", ""⟩

/-- Column resolving to the banned union
`Scheduled Pick Date|Transaction Details|As Of Date`. -/
def colUnion : ColumnRow :=
  ⟨"saw_0", "regularColumn", "sqlExpression",
    "\"Scheduled Pick Date\".\"A\" + \"Transaction Details\".\"B\" + \"As Of Date\".\"C\"",
    "", ""⟩

/-- Witness for C5: the `Volume` column row and the banned-union column
row are both dropped at emission. -/
theorem claim5_witness :
    worksheetRowsForColumn rvW "" [] colVolume = []
    ∧ worksheetRowsForColumn rvW "" [] colUnion = [] :=
  ⟨claim5_worksheets_filtering.2.1 rvW "" [] colVolume (by decide),
   claim5_worksheets_filtering.2.2 rvW "" [] colUnion (by decide)⟩

/-! ## Prompts and the Filters builder (source lines 1403-1642, 2284-2554) -/

/-- Prompt row extracted by `parse_global_filter_prompt`; only the fields
the Filters builder reads for its output columns are modelled (the many
presentation fields — control type, choices, variables, style/layout JSON
— are copied through verbatim and no claim mentions them).  The extraction
logic itself (source lines 1403-1642) is not the subject of any claim and
is abstracted: a scanned file carries the rows the parser would return. -/
structure PromptRow where
  prompt_type : String
  prompt_name : String
  column_id : String
  expression : String
  column_name : String
  table_name : String
  operator : String
  default_values : String
deriving Repr, DecidableEq

/-- Entry of `prompts_map` (source lines 1688-1694). -/
structure PromptEntry where
  file_path : String
  prompt_path : String
  view_type : String
  instruction : String
  prompt_data : List PromptRow
deriving Repr, DecidableEq

/-- Dashboard(-like) global-filter record, as synthesized by
`_synthesize_global_filters_from_prompts` (source lines 2674-2685). -/
structure GlobalFilter where
  page_name : String
  dashboard_name : String
  section_name : String
  column_name : String
  duid : String
  page_file : String
  filter_name : String
  filter_index : Nat
  caption : String
  filter_path : String
deriving Repr, DecidableEq

/-- Output row of the Filters builder; the naming/path/Style/Layout/
Position columns are copied through from the inputs and no claim mentions
them. -/
structure FilterOutRow where
  filter_type : String
  operator : String
  parent_operator : String
  expression : String
  column_name : String
  table_name : String
  filter_value : String
  column_id : String
  direction : String
deriving Repr, DecidableEq

/-- Report-filter and sort rows for one report view (source lines
2303-2436): flatten the report's criteria filter tree, then one `Sort` row
per column-order entry. -/
def filtersRowsForRv (rv : ReportView) (reports_map : List (String × ReportEntry)) :
    List FilterOutRow :=
  match lookupReportInfo reports_map rv.report_path with
  | some info =>
    let rd := info.report_data
    let root := rd.root
    let main_filter_expr :=
      match find (some root) pDescCriteriaFilter with
      | some filter_elem => find (some filter_elem) pSawxExpr
      | none => none
    let reportFilterRows :=
      match main_filter_expr with
      | some mfe =>
        (parse_filter_expression (some mfe) "").map (fun fi =>
          ({ filter_type := "ReportFilter", operator := fi.operator,
             parent_operator := fi.parent_operator, expression := fi.column_expression,
             column_name := fi.column_name, table_name := fi.table_name,
             filter_value := fi.filter_value, column_id := "", direction := "" } : FilterOutRow))
      | none => []
    let sortRows := rd.column_order_rows.map (fun order =>
      let expression :=
        match (rd.column_rows.filter (fun c => c.column_id == order.column_id)).getLast? with
        | some col => col.expression
        | none => ""
      let parts :=
        if !(pyIsEmpty expression) && pyContains expression "\"" then pySplitOnChar '"' expression
        else []
      ({ filter_type := "Sort", operator := "", parent_operator := "",
         expression := expression,
         column_name := if parts.length ≥ 4 then parts[3]! else "",
         table_name := if parts.length ≥ 2 then parts[1]! else "",
         filter_value := "", column_id := order.column_id,
         direction := order.direction } : FilterOutRow))
    reportFilterRows ++ sortRows
  | none => []

/-- Prompt rows for one global filter (source lines 2439-2553): look up
the prompt (retrying with a re-encoded path), emit one row per prompt with
the IN reconstruction fix-up, or a single fallback `Prompt` row. -/
def filtersRowsForGf (gf : GlobalFilter) (prompts_map : List (String × PromptEntry)) :
    List FilterOutRow :=
  let prompt_info :=
    match lookupLowerLast prompts_map (pyToLower gf.filter_path) with
    | some pe => some pe
    | none =>
      let encoded := pyReplace (pyReplace gf.filter_path "." "%2e") " " "+"
      lookupLowerLast prompts_map (pyToLower encoded)
  match prompt_info with
  | some pe =>
    pe.prompt_data.map (fun pd =>
      let expression :=
        if pd.operator == "in" && !(pyIsEmpty pd.expression) &&
            !(pyContains (pyToUpper pd.expression) "IN") &&
            !(pyIsEmpty pd.table_name) && !(pyIsEmpty pd.column_name) then
          if !(pyIsEmpty pd.default_values) then
            "\"" ++ pd.table_name ++ "\".\"" ++ pd.column_name ++ "\" IN (" ++
              pd.default_values ++ ")"
          else "\"" ++ pd.table_name ++ "\".\"" ++ pd.column_name ++ "\" IN ()"
        else pd.expression
      ({ filter_type := if !(pyIsEmpty pe.view_type) then pe.view_type else "Prompt",
         operator := pd.operator, parent_operator := "", expression := expression,
         column_name := pd.column_name, table_name := pd.table_name,
         filter_value := pd.default_values, column_id := pd.column_id,
         direction := "" } : FilterOutRow))
  | none =>
    [({ filter_type := "Prompt", operator := "", parent_operator := "",
        expression := "", column_name := gf.caption, table_name := "",
        filter_value := "", column_id := "", direction := "" } : FilterOutRow)]

/-- Embedding of `create_filters_csv_data` (source lines 2284-2554). -/
def create_filters_csv_data (rvs : List ReportView) (gfs : List GlobalFilter)
    (reports_map : List (String × ReportEntry))
    (prompts_map : List (String × PromptEntry)) : List FilterOutRow :=
  rvs.flatMap (fun rv => filtersRowsForRv rv reports_map) ++
    gfs.flatMap (fun gf => filtersRowsForGf gf prompts_map)

/-- Embedding of `create_charttype_csv_data` over all report views
(source lines 2052-2224); the not-found fallback row (lines 2207-2222)
carries `ChartType` `unknown`. -/
def create_charttype_csv_data (rvs : List ReportView)
    (reports_map : List (String × ReportEntry)) : List ChartTypeRow :=
  rvs.flatMap (fun rv =>
    match lookupReportInfo reports_map rv.report_path with
    | some info => charttypeRowsForReportData info.report_data
    | none => [({ view_id := "", view_type := "", chart_type := "unknown",
                  is_current_view := "No" } : ChartTypeRow)])

/-! ## process_all_reports_recursively (source lines 1644-1716) -/

/-- Drop `n` characters from the end of a string. -/
def strDropRight (s : String) (n : Nat) : String :=
  String.mk (s.toList.take (s.toList.length - n))

/-- Scanned file of the corpus walk.  `relpath` is the path relative to
the scan root with `/` separators (the scan root itself is assumed not to
contain the substring `prompt`); `doc` is the `ET.parse` outcome (`none`
models a parse exception); `promptRows`, `promptViewType` and
`promptInstruction` abstract what `parse_global_filter_prompt` — which
catches all its exceptions internally and returns an empty list on any
failure — would extract from the parsed document. -/
structure ScannedFile where
  relpath : String
  doc : Option Element
  promptRows : List PromptRow
  promptViewType : String
  promptInstruction : String
deriving Repr

/-- File name (last path segment) of a scanned file. -/
def ScannedFile.fname (f : ScannedFile) : String := pyBasename f.relpath

/-- Directory part of a scanned file's path. -/
def ScannedFile.dirpath (f : ScannedFile) : String := pyDirname f.relpath

/-- Catalog path of a scanned file (source lines 1668-1677): `/` plus the
relative path with `+` as spaces, URL-decoded, without a `.xml` suffix. -/
def catalogPathOf (relpath : String) : String :=
  let report_path := pyUnquote ("/" ++ pyReplace relpath "+" " ")
  if pyIsSuffixOf ".xml" report_path then strDropRight report_path 4 else report_path

/-- Python dict insertion: replace the value in place when the key exists,
append otherwise. -/
def insertAssoc {α : Type} (m : List (String × α)) (k : String) (v : α) :
    List (String × α) :=
  if (m.map (fun kv => kv.1)).contains k then
    m.map (fun kv => if kv.1 == k then (k, v) else kv)
  else m ++ [(k, v)]

/-- Is the file skipped outright (source lines 1661-1663:
`.atr` files and files with `page+` in the name)? -/
def scanSkips (f : ScannedFile) : Bool :=
  pyIsSuffixOf ".atr" f.fname || pyContains (pyToLower f.fname) "page+"

/-- Is the prompt branch attempted for this file (source line 1679:
`prompt` in the file name or directory path, lowercased)? -/
def promptEligibleF (f : ScannedFile) : Bool :=
  pyContains (pyToLower f.fname) "prompt" || pyContains (pyToLower f.dirpath) "prompt"

/-- Prompt rows the prompt parser returns for this file: empty when the
document does not parse (the parser catches the exception). -/
def effectivePromptRows (f : ScannedFile) : List PromptRow :=
  match f.doc with
  | some _ => f.promptRows
  | none => []

/-- One step of the corpus scan (source lines 1660-1713). -/
def scanStep (maps : List (String × ReportEntry) × List (String × PromptEntry))
    (f : ScannedFile) :
    List (String × ReportEntry) × List (String × PromptEntry) :=
  if scanSkips f then maps
  else
    let report_path := catalogPathOf f.relpath
    let prompt_data := effectivePromptRows f
    if promptEligibleF f && !prompt_data.isEmpty then
      (maps.1, insertAssoc maps.2 report_path
        ({ file_path := f.relpath, prompt_path := report_path,
           view_type := (match f.doc with | some _ => f.promptViewType | none => ""),
           instruction := (match f.doc with | some _ => f.promptInstruction | none => ""),
           prompt_data := prompt_data } : PromptEntry))
    else
      if !(pyContains (pyToLower f.fname) "dashboard+layout") &&
          !(pyIsPrefixOf "page+" (pyToLower f.fname)) then
        match f.doc with
        | some root =>
          (insertAssoc maps.1 report_path
            ({ file_path := f.relpath, report_path := report_path,
               report_data := parse_report root } : ReportEntry), maps.2)
        | none => maps
      else maps

/-- Embedding of `process_all_reports_recursively` (source lines
1644-1716) over the scanned files in walk order. -/
def process_all_reports_recursively (files : List ScannedFile) :
    List (String × ReportEntry) × List (String × PromptEntry) :=
  files.foldl scanStep ([], [])

/-! ## Fallback synthesizers and main (source lines 2618-2860) -/

/-- Embedding of `file_path_to_catalog_path` (source lines 2226-2269) on
paths already relative to the scan root. -/
def file_path_to_catalog_path (file_path : String) : String :=
  if pyIsEmpty file_path then ""
  else
    let path_parts := pySplitOnChar '/' file_path
    let from_shared := path_parts.dropWhile (fun part => !(pyToLower part == "shared"))
    let catalog_parts := if from_shared.isEmpty then path_parts else from_shared
    let catalog_path := "/" ++ pyReplace (String.intercalate "/" catalog_parts) "+" " "
    if pyIsSuffixOf ".xml" catalog_path then strDropRight catalog_path 4 else catalog_path

/-- Embedding of `_synthesize_dashboard_report_views_from_reports`
(source lines 2618-2659): one dashboard-like report view per discovered
report. -/
def synthesize_dashboard_report_views_from_reports
    (reports_map : List (String × ReportEntry)) : List ReportView :=
  reports_map.map (fun kv =>
    let report_path := kv.1
    let info := kv.2
    let file_path := info.file_path
    let encoded_base := if !(pyIsEmpty file_path) then pyBasename file_path else ""
    let page_name :=
      if !(pyIsEmpty encoded_base) then pyUnquote (pyReplace encoded_base "+" " ")
      else pyBasename (pyStripChar '/' report_path)
    let catalog_full :=
      if !(pyIsEmpty file_path) then file_path_to_catalog_path file_path else report_path
    let dashboard_catalog :=
      if pyContains (pyStripChar '/' catalog_full) "/" then
        "/" ++ String.intercalate "/"
          ((pySplitOnChar '/' (pyStripChar '/' catalog_full)).dropLast)
      else catalog_full
    { page_name := page_name, dashboard_name := pyStripChar '/' dashboard_catalog,
      section_name := "", column_name := "", display := "", duid := "",
      page_file := file_path, report_view_name := "", caption := page_name,
      report_path := report_path, report_type := "report" })

/-- Embedding of `_synthesize_global_filters_from_prompts` (source lines
2661-2687): one global-filter record per discovered prompt. -/
def synthesize_global_filters_from_prompts
    (prompts_map : List (String × PromptEntry)) : List GlobalFilter :=
  prompts_map.map (fun kv =>
    let prompt_path := kv.1
    let info := kv.2
    let page_name := pyBasename prompt_path
    { page_name := page_name, dashboard_name := pyDirname (pyStripChar '/' prompt_path),
      section_name := "", column_name := "", duid := "", page_file := info.file_path,
      filter_name := page_name, filter_index := 0, caption := page_name,
      filter_path := prompt_path })

/-- The three output tables any claim mentions. -/
structure CsvTables where
  worksheets : List WorksheetRow
  charttype : List ChartTypeRow
  filters : List FilterOutRow
deriving Repr, DecidableEq

/-- Embedding of the core of `main` (source lines 2732-2813): scan the
corpus, fall back to synthesized report views and global filters when the
dashboard scan found none (otherwise extend with the standalone ones not
already on dashboards), and build the Worksheets (with both
post-processing passes), ChartType and Filters tables. -/
def mainTables (files : List ScannedFile) (aggRvs : List ReportView)
    (aggGfs : List GlobalFilter) : CsvTables :=
  let maps := process_all_reports_recursively files
  let reports_map := maps.1
  let prompts_map := maps.2
  let use_rvs_gfs :=
    if aggRvs.length == 0 then
      (synthesize_dashboard_report_views_from_reports reports_map,
       synthesize_global_filters_from_prompts prompts_map)
    else
      let synth_rvs := synthesize_dashboard_report_views_from_reports reports_map
      let present_reports := aggRvs.map (fun rv => pyToLower rv.report_path)
      let synth_gfs := synthesize_global_filters_from_prompts prompts_map
      let present_prompts := aggGfs.map (fun gf => pyToLower gf.filter_path)
      (aggRvs ++ synth_rvs.filter (fun rv => !(present_reports.contains (pyToLower rv.report_path))),
       aggGfs ++ synth_gfs.filter (fun gf => !(present_prompts.contains (pyToLower gf.filter_path))))
  let use_rvs := use_rvs_gfs.1
  let use_gfs := use_rvs_gfs.2
  { worksheets := worksheetsFinal use_rvs reports_map,
    charttype := create_charttype_csv_data use_rvs reports_map,
    filters := create_filters_csv_data use_rvs use_gfs reports_map prompts_map }

/-- C10: one scan step touches at most one of the two result maps: it
either leaves both unchanged, or inserts one report entry, or inserts one
prompt entry; and whenever the prompt branch applies (the file is not
skipped, its name or directory contains `prompt`, and the prompt parse
yields a non-empty list) the file is stored only in the prompts map — it
is never additionally stored as a report. -/
theorem claim10_scan_exclusive :
    (∀ maps f, scanStep maps f = maps
      ∨ (∃ e, scanStep maps f = (insertAssoc maps.1 (catalogPathOf f.relpath) e, maps.2))
      ∨ (∃ pe, scanStep maps f = (maps.1, insertAssoc maps.2 (catalogPathOf f.relpath) pe)))
    ∧ (∀ maps f, scanSkips f = false → promptEligibleF f = true →
        effectivePromptRows f ≠ [] →
        ∃ pe, scanStep maps f = (maps.1, insertAssoc maps.2 (catalogPathOf f.relpath) pe)) := by
  constructor
  · intro maps f
    unfold scanStep
    by_cases h1 : scanSkips f
    · left
      simp [h1]
    · by_cases h2 : promptEligibleF f && !(effectivePromptRows f).isEmpty
      · right; right
        exact ⟨_, by simp [h1, h2]; rfl⟩
      · by_cases h3 : !(pyContains (pyToLower f.fname) "dashboard+layout") &&
            !(pyIsPrefixOf "page+" (pyToLower f.fname))
        · match hd : f.doc with
          | some root =>
            right; left
            exact ⟨_, by simp [h1, h2, h3, hd]; rfl⟩
          | none =>
            left
            simp [h1, h2, h3, hd]
        · left
          simp [h1, h2, h3]
  · intro maps f h1 h2 h3
    have h2' : (promptEligibleF f && !(effectivePromptRows f).isEmpty) = true := by
      simp [h2, h3]
    exact ⟨_, by unfold scanStep; simp [h1, h2']; rfl⟩

/-- Concrete prompt file for the C10 witness: lives under a `prompts`
folder, parses, and yields one prompt row. -/
def fPromptEx : ScannedFile :=
  ⟨"shared/prompts/gfp1", some ⟨"saw:globalFilterPrompt", [], "", "", EL []⟩,
    [⟨"", "p1", "c0", "", "", "", "", ""⟩], "globalFilterPrompt", ""⟩

/-- Witness for C10 at the concrete prompt file. -/
theorem claim10_witness :
    ∃ pe, scanStep ([], []) fPromptEx
      = (([] : List (String × ReportEntry)),
         insertAssoc ([] : List (String × PromptEntry))
           (catalogPathOf fPromptEx.relpath) pe) :=
  claim10_scan_exclusive.2 ([], []) fPromptEx (by decide) (by decide) (by decide)

/-- Minimal parseable report document: a bare report root with no
criteria, no columns, no views and no filters. -/
def fMin : ScannedFile :=
  ⟨"shared/rep1", some ⟨"saw:report", [], "", "", EL []⟩, [], "", ""⟩

/-- C8: the core pipeline is a pure function of the scanned corpus and the
dashboard aggregates — equal inputs give equal (hence byte-identical)
output tables; the embedding takes no clock, randomness or environment
input. -/
theorem claim8_determinism (filesA filesB : List ScannedFile)
    (rvsA rvsB : List ReportView) (gfsA gfsB : List GlobalFilter)
    (hf : filesA = filesB) (hr : rvsA = rvsB) (hg : gfsA = gfsB) :
    mainTables filesA rvsA gfsA = mainTables filesB rvsB gfsB := by
  subst hf
  subst hr
  subst hg
  rfl

/-- Witness for C8 at a concrete corpus. -/
theorem claim8_witness : mainTables [fMin] [] [] = mainTables [fMin] [] [] :=
  claim8_determinism [fMin] [fMin] [] [] [] [] rfl rfl rfl

/-- C4 counterexample: a corpus with zero dashboard layout documents and
one parseable report — a report with no columns, views or filters — still
yields EMPTY Worksheets, ChartType and Filters tables, refuting the
claimed unconditional non-emptiness. -/
theorem claim4_counterexample :
    (process_all_reports_recursively [fMin]).1.length = 1
    ∧ (mainTables [fMin] [] []).worksheets = []
    ∧ (mainTables [fMin] [] []).charttype = []
    ∧ (mainTables [fMin] [] []).filters = [] :=
  ⟨rfl, rfl, rfl, rfl⟩

/-- C4 (amended): when the corpus has no dashboard report views but at
least one parseable report, `main` feeds the CSV builders the synthesized
dashboard-like report-view records (one per discovered report, so a
non-empty list) and the synthesized global-filter records (one per
prompt); the three tables are computed from exactly these synthesized
records, but each can still be empty when the discovered reports
contribute no rows (no columns, views or filters respectively). -/
theorem claim4_fallback_synthesis (files : List ScannedFile)
    (hne : (process_all_reports_recursively files).1 ≠ []) :
    synthesize_dashboard_report_views_from_reports
        (process_all_reports_recursively files).1 ≠ []
    ∧ mainTables files [] [] =
      { worksheets := worksheetsFinal
          (synthesize_dashboard_report_views_from_reports
            (process_all_reports_recursively files).1)
          (process_all_reports_recursively files).1,
        charttype := create_charttype_csv_data
          (synthesize_dashboard_report_views_from_reports
            (process_all_reports_recursively files).1)
          (process_all_reports_recursively files).1,
        filters := create_filters_csv_data
          (synthesize_dashboard_report_views_from_reports
            (process_all_reports_recursively files).1)
          (synthesize_global_filters_from_prompts
            (process_all_reports_recursively files).2)
          (process_all_reports_recursively files).1
          (process_all_reports_recursively files).2 } := by
  constructor
  · intro h
    exact hne (List.map_eq_nil_iff.mp h)
  · rfl

/-- Witness for C4 (amended) at the one-report corpus. -/
theorem claim4_witness :
    synthesize_dashboard_report_views_from_reports
        (process_all_reports_recursively [fMin]).1 ≠ []
    ∧ mainTables [fMin] [] [] =
      { worksheets := worksheetsFinal
          (synthesize_dashboard_report_views_from_reports
            (process_all_reports_recursively [fMin]).1)
          (process_all_reports_recursively [fMin]).1,
        charttype := create_charttype_csv_data
          (synthesize_dashboard_report_views_from_reports
            (process_all_reports_recursively [fMin]).1)
          (process_all_reports_recursively [fMin]).1,
        filters := create_filters_csv_data
          (synthesize_dashboard_report_views_from_reports
            (process_all_reports_recursively [fMin]).1)
          (synthesize_global_filters_from_prompts
            (process_all_reports_recursively [fMin]).2)
          (process_all_reports_recursively [fMin]).1
          (process_all_reports_recursively [fMin]).2 } :=
  claim4_fallback_synthesis [fMin] (by
    intro h
    have hlen : (process_all_reports_recursively [fMin]).1.length = 1 := rfl
    rw [h] at hlen
    exact absurd hlen (by decide))
